import Mathlib

/-!
Shallow embedding of the game-state engine of `src/generative_zork_like.py`
("Village of Theron"): the world model, the combat resolver, the quest
triggers, the shop, persistence (world_to_dict / dict_to_world) and the
command dispatcher (parse_and_exec), together with theorems settling the
frozen claims about them.

Modelling conventions, used throughout and noted again at each definition:
* Python dicts are insertion-ordered association lists `List (String × α)`
  with `dictGet` / `dictSet` / `dictDel`.
* Machine integers: Python ints are unbounded, so `Int` is exact.
* Randomness (`random.randint`, `random.random`) is passed in as explicit
  parameters (the sampled roll, the flee-success boolean); theorems
  quantify over rolls inside the documented inclusive range.
* Python exceptions are `Option`: a function that can raise returns
  `none` exactly where the source would raise.
* The colorize_* helpers wrap text in terminal color escapes only when
  colorama is importable; they are presentation-only and are modelled as
  the identity on text.  ASCII-art helpers (get_location_art,
  get_creature_art, get_item_art) and pure display screens
  (show_enhanced_inventory, stats, quests, the maps, the achievement and
  relationship screens, show_shop) never mutate the World; their display
  text is presentation-only and modelled as `""`.  Music and dashboard
  calls touch only external singletons and are dropped.
-/

namespace Theron

/-- Python dict lookup `d.get(k)`: first binding of `k`, if any. -/
def dictGet (d : List (String × α)) (k : String) : Option α :=
  (d.find? (fun p => p.1 == k)).map (fun p => p.2)

/-- Python dict assignment `d[k] = v`: overwrite in place, else append. -/
def dictSet (d : List (String × α)) (k : String) (v : α) : List (String × α) :=
  if (d.find? (fun p => p.1 == k)).isSome then
    d.map (fun p => if p.1 == k then (k, v) else p)
  else
    d ++ [(k, v)]

/-- Python `del d[k]`. -/
def dictDel (d : List (String × α)) (k : String) : List (String × α) :=
  d.filter (fun p => p.1 != k)

/-- A value stored in the World's string-keyed flag bag.  The source
declares `flags: Dict[str, bool]` but also stores ints (stashed boss hp)
and strings (stashed boss key) in it. -/
inductive FlagVal where
  | bool (b : Bool)
  | int (n : Int)
  | str (s : String)
deriving Repr, DecidableEq

/-- Python truthiness of `d.get(k)`: None and False and 0 and "" are
falsy, everything else stored in the flag bag is truthy. -/
def truthy : Option FlagVal → Bool
  | none => false
  | some (.bool b) => b
  | some (.int n) => n != 0
  | some (.str s) => s != ""

/-- A stat value in an Item's stat-modifier mapping: an int, or the
literal string `"full"` (only `greater_healing_potion`'s heal stat). -/
inductive StatVal where
  | int (n : Int)
  | full
deriving Repr, DecidableEq

/-- `class Item` (the immutable catalog entry). -/
structure Item where
  key : String
  name : String
  category : String
  description : String
  stats : List (String × StatVal) := []
  value : Int := 0
  equipable : Bool := false
deriving Repr, DecidableEq

/-- `class Equipment`: the three optional slots. -/
structure Equipment where
  weapon : Option String := none
  armor : Option String := none
  accessory : Option String := none
deriving Repr, DecidableEq

/-- `class NPC`. -/
structure NPC where
  key : String
  name : String
  personality : String
  memory : List String := []
  relationship_level : String := "neutral"
  relationship_points : Int := 0
  emotional_state : String := "calm"
  conversation_topics : List (String × Int) := []
deriving Repr, DecidableEq

/-- `class Location`. -/
structure Location where
  key : String
  description : String
  exits : List String
  npcs : List String := []
  items : List String := []
  visited : Bool := false
deriving Repr, DecidableEq

/-- `class Player`. -/
structure Player where
  location : String
  inventory : List String := []
  quests : List (String × String) := []
  gold : Int := 0
  hp : Int := 20
  max_hp : Int := 20
  previous_location : String := ""
  explored_areas : List String := []
  achievements : List String := []
  equipment : Equipment := {}
deriving Repr, DecidableEq

/-- `class Monster`. -/
structure Monster where
  key : String
  name : String
  hp : Int
  attack_min : Int
  attack_max : Int
deriving Repr, DecidableEq

/-- `class World`. -/
structure World where
  player : Player
  locations : List (String × Location)
  npcs : List (String × NPC)
  flags : List (String × FlagVal) := []
  monster : Option Monster := none
deriving Repr, DecidableEq

/-- `w.flags.get(k)`. -/
def World.flag (w : World) (k : String) : Option FlagVal :=
  dictGet w.flags k

/-- Truthiness of `w.flags.get("in_combat")`. -/
def inCombat (w : World) : Bool := truthy (w.flag "in_combat")

/-- Truthiness of `w.flags.get("game_over")`. -/
def gameOverFlag (w : World) : Bool := truthy (w.flag "game_over")

/-- The `ITEMS` catalog (all 14 entries, fields as in the source). -/
def ITEMS : List (String × Item) := [
  ("rusty_sword",
    { key := "rusty_sword", name := "Rusty Sword", category := "weapon",
      description := "An old, rusty blade. Better than nothing.",
      stats := [("attack", .int 3)], value := 10, equipable := true }),
  ("broad_sword",
    { key := "broad_sword", name := "Broad Sword", category := "weapon",
      description := "A masterfully forged blade with excellent balance.",
      stats := [("attack", .int 8)], value := 50, equipable := true }),
  ("leather_armor",
    { key := "leather_armor", name := "Leather Armor", category := "armor",
      description := "Basic protection from wild beasts.",
      stats := [("defense", .int 3)], value := 25, equipable := true }),
  ("magical_amulet",
    { key := "magical_amulet", name := "Magical Amulet", category := "accessory",
      description := "A mystical amulet that radiates healing energy.",
      stats := [("max_hp", .int 5), ("hp_regen", .int 1)], value := 100,
      equipable := true }),
  ("iron_ore",
    { key := "iron_ore", name := "Iron Ore", category := "material",
      description := "Raw iron ore, perfect for forging.", value := 15 }),
  ("glimmering_gem",
    { key := "glimmering_gem", name := "Glimmering Gem", category := "quest",
      description := "A mysterious gem that pulses with magical energy.",
      value := 200 }),
  ("ancient_scroll",
    { key := "ancient_scroll", name := "Ancient Scroll", category := "quest",
      description := "Ancient runes cover this weathered parchment.",
      value := 150 }),
  ("master_key",
    { key := "master_key", name := "Master Key", category := "quest",
      description := "An ornate key humming with arcane power.", value := 300 }),
  ("health_potion",
    { key := "health_potion", name := "Health Potion", category := "consumable",
      description := "Restores health when consumed.",
      stats := [("heal", .int 15)], value := 20 }),
  ("elder_sword",
    { key := "elder_sword", name := "Elder Sword", category := "weapon",
      description := "A legendary blade forged by ancient masters. Its edge gleams with otherworldly sharpness.",
      stats := [("attack", .int 12)], value := 200, equipable := true }),
  ("ancient_trinket",
    { key := "ancient_trinket", name := "Ancient Trinket", category := "quest",
      description := "A small ornate medallion with intricate engravings. It feels warm to the touch.",
      value := 300 }),
  ("guardian_armor",
    { key := "guardian_armor", name := "Guardian Armor", category := "armor",
      description := "Ancient plate armor blessed with protective runes. Reduces incoming damage significantly.",
      stats := [("defense", .int 5)], value := 150, equipable := true }),
  ("healing_potion",
    { key := "healing_potion", name := "Healing Potion", category := "consumable",
      description := "A magical potion that restores 10 HP when consumed. Can be used anywhere.",
      stats := [("heal", .int 10)], value := 8 }),
  ("greater_healing_potion",
    { key := "greater_healing_potion", name := "Greater Healing Potion",
      category := "consumable",
      description := "A powerful healing elixir that fully restores HP. Can be used anywhere.",
      stats := [("heal", .full)], value := 20 })]

/-- The `SHOP` table: shop-owner NPC key to (item key, price) stock. -/
def SHOP : List (String × List (String × Int)) := [
  ("blacksmith", [("rusty_sword", 10), ("guardian_armor", 15)]),
  ("healer", [("healing_potion", 8), ("greater_healing_potion", 20)])]

/-- Whether the character list `needle` is a leading segment of `hay`. -/
def leadsChars : List Char → List Char → Bool
  | [], _ => true
  | _ :: _, [] => false
  | a :: as, b :: bs => a == b && leadsChars as bs

/-- Whether `needle` occurs contiguously inside `hay`. -/
def containsChars (needle : List Char) : List Char → Bool
  | [] => leadsChars needle []
  | b :: bs => leadsChars needle (b :: bs) || containsChars needle bs

/-- Python's substring test `needle in hay`. -/
def strContains (hay needle : String) : Bool :=
  containsChars needle.toList hay.toList

/-- Python's `str.strip()`: drop leading and trailing whitespace. -/
def pyStrip (s : String) : String :=
  String.mk
    (((s.toList.dropWhile Char.isWhitespace).reverse.dropWhile
      Char.isWhitespace).reverse)

/-- Python's `str.lower()` (the engine's inputs and keys are ASCII, where
this agrees with a per-character lowering). -/
def pyLower (s : String) : String :=
  String.mk (s.toList.map Char.toLower)

/-- Python's `s.startswith(pre)`. -/
def pyStartsWith (s pre : String) : Bool :=
  leadsChars pre.toList s.toList

/-- Python's `str.replace(a, b)` for the single-character needles the
source uses (`" "`→`"_"` and `"_"`→`" "`), which is a character map. -/
def replaceChar (a b : Char) (s : String) : String :=
  String.mk (s.toList.map (fun c => if c == a then b else c))

/-- `sep.join(xs)` / `String.intercalate`. -/
def joinWith (sep : String) : List String → String
  | [] => ""
  | [x] => x
  | h :: t => h ++ sep ++ joinWith sep t

/-- Split on a single separator character, keeping empty pieces
(`s.split(" ")`). -/
def splitOnSpaceAux : List Char → List Char → List (List Char)
  | [], cur => [cur.reverse]
  | c :: rest, cur =>
    if c == ' ' then cur.reverse :: splitOnSpaceAux rest []
    else splitOnSpaceAux rest (c :: cur)

/-- Python's `s.split()`: whitespace-run split, no empty pieces. -/
def wsTokens : List Char → List Char → List (List Char)
  | [], cur => if cur.isEmpty then [] else [cur.reverse]
  | c :: rest, cur =>
    if c.isWhitespace then
      if cur.isEmpty then wsTokens rest []
      else cur.reverse :: wsTokens rest []
    else wsTokens rest (c :: cur)

/-- Python's `s.split()`. -/
def pySplit (s : String) : List String :=
  (wsTokens s.toList []).map String.mk

/-- Python's `s.split(" ", 1)`: split at the first space only. -/
def pySplitOnce (s sep : String) : List String :=
  match (splitOnSpaceAux s.toList []).map String.mk with
  | [] => [s]
  | [x] => [x]
  | h :: t => [h, joinWith sep t]

/-- Python's `s.split(maxsplit=1)` on an already-stripped string: first
whitespace-free token, then the rest with its leading whitespace removed. -/
def wsSplitOnce (s : String) : List String :=
  let cs := s.toList
  let head := cs.takeWhile (fun c => !c.isWhitespace)
  let rest := (cs.dropWhile (fun c => !c.isWhitespace)).dropWhile (fun c => c.isWhitespace)
  if rest.isEmpty then [String.mk head] else [String.mk head, String.mk rest]

/-- The stat dictionary built by `get_player_stats`.  The source returns a
dict initialised with exactly these four keys; item stats under any other
key (only "heal", on consumables) add a dict entry that no consumer ever
reads, so the record form is observationally equivalent. -/
structure PStats where
  attack : Int
  defense : Int
  max_hp : Int
  hp_regen : Int
deriving Repr, DecidableEq

/-- One step of the stat-accumulation loop `base_stats[stat] =
base_stats.get(stat, 0) + value`.  Adding the string value `"full"` to an
int would raise TypeError in the source, hence `none`. -/
def addStat (st : PStats) (kv : String × StatVal) : Option PStats :=
  match kv.2 with
  | .full => none
  | .int v =>
    some (if kv.1 == "attack" then { st with attack := st.attack + v }
      else if kv.1 == "defense" then { st with defense := st.defense + v }
      else if kv.1 == "max_hp" then { st with max_hp := st.max_hp + v }
      else if kv.1 == "hp_regen" then { st with hp_regen := st.hp_regen + v }
      else st)

/-- Fold `addStat` over an item's stat mapping. -/
def addStats (st : PStats) : List (String × StatVal) → Option PStats
  | [] => some st
  | kv :: rest =>
    match addStat st kv with
    | none => none
    | some st2 => addStats st2 rest

/-- One equipment slot's contribution: `if slot and slot in ITEMS: add its
stats`.  `none`/missing-from-catalog slots contribute nothing (an empty
string slot is falsy in Python and also absent from ITEMS, same result). -/
def slotStats (st : PStats) (slot : Option String) : Option PStats :=
  match slot with
  | none => some st
  | some key =>
    match dictGet ITEMS key with
    | none => some st
    | some item => addStats st item.stats

/-- `get_player_stats`: base attack 2, base defense 0, plus the stats of
the equipped weapon, armor and accessory. -/
def getPlayerStats (w : World) : Option PStats := do
  let st0 : PStats :=
    { attack := 2, defense := 0, max_hp := w.player.max_hp, hp_regen := 0 }
  let st1 ← slotStats st0 w.player.equipment.weapon
  let st2 ← slotStats st1 w.player.equipment.armor
  slotStats st2 w.player.equipment.accessory

/-- `build_world`: the initial World (descriptions abbreviated nowhere;
they are copied from the source). -/
def buildWorld : World :=
  { player :=
      { location := "village_square",
        inventory := [],
        quests := [
          ("prove_worth", "not_started"),
          ("clear_cave", "not_started"),
          ("heal_elder", "not_started"),
          ("retrieve_scroll", "not_started"),
          ("forge_key", "not_started"),
          ("final_treasure", "not_started"),
          ("lost_trinket", "not_started")],
        gold := 15,
        hp := 20, max_hp := 20,
        explored_areas := ["village_square"] },
    locations := [
      ("village_square",
        { key := "village_square",
          description := "Village Square — smithy smoke curls into the sky. A forest path leads north. An ancient tower looms to the east.",
          exits := ["blacksmith_shop", "forest_path", "elder_hut", "sealed_tower", "healer_tent"],
          npcs := ["wanderer"] }),
      ("blacksmith_shop",
        { key := "blacksmith_shop",
          description := "Blacksmith Shop — heat and hammering. Tools line the walls.",
          exits := ["village_square"],
          npcs := ["blacksmith"] }),
      ("forest_path",
        { key := "forest_path",
          description := "Forest Path — tall pines, damp earth. A narrow track disappears into darker woods.",
          exits := ["village_square", "hidden_cave", "iron_mine"] }),
      ("iron_mine",
        { key := "iron_mine",
          description := "Iron Mine — abandoned shafts echo with your footsteps. Rusty ore glints in the dim light.",
          exits := ["forest_path"],
          items := ["iron_ore"],
          npcs := ["miner"] }),
      ("healer_tent",
        { key := "healer_tent",
          description := "Healer's Tent — soft candlelight illuminates shelves of herbs and potions. The scent of healing oils fills the air.",
          exits := ["village_square"],
          npcs := ["healer"] }),
      ("elder_hut",
        { key := "elder_hut",
          description := "Elder's Hut — a modest dwelling filled with ancient books and herbs. The Elder lies pale in bed.",
          exits := ["village_square"],
          npcs := ["elder"] }),
      ("hidden_cave",
        { key := "hidden_cave",
          description := "Hidden Cave — your footsteps echo; the air is cool and still. You notice a faint draft coming from behind some loose rocks.",
          exits := ["forest_path", "deep_ruins"] }),
      ("deep_ruins",
        { key := "deep_ruins",
          description := "Deep Ruins — ancient stone corridors carved with mysterious symbols. The air hums with old magic.",
          exits := ["hidden_cave"] }),
      ("sealed_tower",
        { key := "sealed_tower",
          description := "Sealed Tower — a massive door blocks your way, covered in arcane locks. Beyond lies untold treasure.",
          exits := ["village_square"] }),
      ("secret_chamber",
        { key := "secret_chamber",
          description := "Secret Chamber — a small hidden room behind the cave wall. Ancient symbols glow faintly on the walls, and you see something glinting in an alcove.",
          exits := ["hidden_cave"],
          items := ["ancient_trinket"] })],
    npcs := [
      ("blacksmith",
        { key := "blacksmith", name := "Rogan the Blacksmith",
          personality := "Gruff but helpful, secretly fond of gossip.",
          memory := ["Met the player in the village square.",
            "Heard rumors of a lost gem in the cave."],
          emotional_state := "calm", relationship_level := "neutral" }),
      ("elder",
        { key := "elder", name := "Elder Theron",
          personality := "Wise but weakened by a mysterious curse. Speaks in riddles and ancient wisdom.",
          memory := ["Has been cursed for weeks, growing weaker.",
            "Knows ancient magic and village history."],
          emotional_state := "sad", relationship_level := "neutral" }),
      ("healer",
        { key := "healer", name := "Mira the Healer",
          personality := "Kind and gentle, devoted to helping wounded adventurers. Charges fair prices for healing.",
          memory := ["Runs the village healing tent.",
            "Knows herbal remedies and basic healing magic."],
          emotional_state := "calm", relationship_level := "friendly",
          relationship_points := 30 }),
      ("wanderer",
        { key := "wanderer", name := "Kael the Wanderer",
          personality := "A mysterious traveler who seems to be searching for something precious. Speaks wistfully of lost artifacts.",
          memory := ["Has been wandering the village for days.",
            "Searching for something important but won't say what."],
          emotional_state := "worried", relationship_level := "neutral" }),
      ("miner",
        { key := "miner", name := "Old Gareth",
          personality := "A retired miner who worked the caves for decades. Has many stories about hidden passages and secret chambers.",
          memory := ["Worked in the caves for 40 years before retiring.",
            "Knows the underground passages better than anyone."],
          emotional_state := "calm", relationship_level := "neutral" })],
    flags := [] }

/-- `get_location_art`: ASCII art, presentation-only, modelled as empty
(the empty string is falsy where the source tests `if art:`). -/
def getLocationArt (_key : String) : String := ""

/-- `get_creature_art`: ASCII art, presentation-only, modelled as empty. -/
def getCreatureArt (_name : String) : String := ""

/-- `show_achievement_notification`: presentation-only banner text,
modelled as empty. -/
def showAchievementNotification (_key : String) : String := ""

/-- `get_item_art`: ASCII art, presentation-only, modelled as empty. -/
def getItemArt (_name : String) : String := ""

/-- The final display section of `describe_location` (description, exits,
NPCs, ground items, combat status line).  `none` models the KeyError when
a listed NPC key is missing from `w.npcs`, or the AttributeError when the
combat line is built with no active monster. -/
def displayTail (w : World) (loc : Location) : Option String := do
  let l1 := [loc.description]
  let l2 := if !loc.exits.isEmpty then
      l1 ++ ["Exits: " ++ joinWith ", " (loc.exits.map (replaceChar '_' ' '))]
    else l1
  let l3 ←
    if !loc.npcs.isEmpty then do
      let names ← loc.npcs.mapM (fun n => (dictGet w.npcs n).map (fun x => x.name))
      some (l2 ++ ["You see: " ++ joinWith ", " names])
    else some l2
  let l4 := if !loc.items.isEmpty then
      l3 ++ ["On the ground: " ++ joinWith ", " (loc.items.map (replaceChar '_' ' '))]
    else l3
  if inCombat w then do
    let m ← w.monster
    some (joinWith "\n" (l4 ++ [s!"🗡 In combat with {m.name}! (HP {m.hp})"]))
  else
    some (joinWith "\n" l4)

/-- `describe_location`.  Music and dashboard calls are dropped; ASCII art
is the empty stub.  The stashed-boss restore reads only string/int flag
values — the source stores exactly those shapes, any other truthy stash
value would poison the restored Monster's later arithmetic and is
modelled as the failure case. -/
def describeLocation (w : World) : Option (World × String) := do
  let loc0 ← dictGet w.locations w.player.location
  if truthy (w.flag (loc0.key ++ "_boss_key")) &&
      truthy (w.flag (loc0.key ++ "_boss_hp")) && !(inCombat w) then
    match w.flag (loc0.key ++ "_boss_key"), w.flag (loc0.key ++ "_boss_hp") with
    | some (.str bk), some (.int bh) =>
      let mon1 : Option Monster :=
        if bk == "cave_beast" then
          some { key := "cave_beast", name := "Cave Beast", hp := bh,
                 attack_min := 2, attack_max := 5 }
        else if bk == "ancient_guardian" then
          some { key := "ancient_guardian", name := "Ancient Guardian", hp := bh,
                 attack_min := 4, attack_max := 8 }
        else if bk == "tower_guardian" then
          some { key := "tower_guardian", name := "Tower Guardian", hp := bh,
                 attack_min := 5, attack_max := 9 }
        else w.monster
      let flags1 := dictSet w.flags "in_combat" (.bool true)
      let flags2 := dictDel (dictDel flags1 (loc0.key ++ "_boss_key")) (loc0.key ++ "_boss_hp")
      let m ← mon1
      some ({ w with monster := mon1, flags := flags2 },
        loc0.description ++ getCreatureArt m.name ++
          s!"\nThe {m.name} is still here, wounded but ready to fight! (HP {m.hp})" ++
          "\nCommands: attack, defend, flee")
    | _, _ => none
  else
  if !loc0.visited then
    if loc0.key == "hidden_cave" && !(truthy (w.flag "cave_seeded")) then
      let loc1 := if loc0.items.contains "glimmering_gem" then loc0
        else { loc0 with items := loc0.items ++ ["glimmering_gem"] }
      let loc2 := { loc1 with visited := true }
      let w1 := { w with
        locations := dictSet w.locations w.player.location loc2,
        flags := dictSet (dictSet w.flags "cave_seeded" (.bool true)) "in_combat" (.bool true),
        monster := some { key := "cave_beast", name := "Cave Beast", hp := 25,
                          attack_min := 2, attack_max := 5 } }
      some (w1, loc2.description ++ getCreatureArt "Cave Beast" ++
        "\nA Cave Beast lunges from the shadows! You are in combat.\nCommands: attack, defend, flee")
    else if loc0.key == "deep_ruins" && !(truthy (w.flag "ruins_seeded")) then
      let flagsA := dictSet w.flags "ruins_seeded" (.bool true)
      let hasStrong := w.player.inventory.contains "broad_sword" ||
        w.player.inventory.contains "elder_sword" ||
        w.player.inventory.any (fun item => strContains item "sword" && item != "rusty_sword")
      if !hasStrong then
        let loc2 := { loc0 with visited := true }
        some ({ w with flags := flagsA,
                       locations := dictSet w.locations w.player.location loc2 },
          loc2.description ++
            "\nAn Ancient Guardian blocks your path to the scroll! Its stone armor looks impervious to weak weapons. You need a stronger blade to face this foe.\nYou retreat wisely.")
      else if !(truthy (dictGet flagsA "guardian_defeated")) then
        let loc2 := { loc0 with visited := true }
        some ({ w with
            flags := dictSet flagsA "in_combat" (.bool true),
            locations := dictSet w.locations w.player.location loc2,
            monster := some { key := "ancient_guardian", name := "Ancient Guardian",
                              hp := 35, attack_min := 4, attack_max := 8 } },
          loc2.description ++ getCreatureArt "Ancient Guardian" ++
            "\nAn Ancient Guardian awakens from its slumber! Your weapon gleams as it senses the worthy foe. You are in combat.\nCommands: attack, defend, flee")
      else
        let loc1 := if loc0.items.contains "ancient_scroll" then loc0
          else { loc0 with items := loc0.items ++ ["ancient_scroll"] }
        let loc2 := { loc1 with visited := true }
        let w1 := { w with flags := flagsA,
                           locations := dictSet w.locations w.player.location loc2 }
        (displayTail w1 loc2).map (fun msg => (w1, msg))
    else if loc0.key == "iron_mine" && !(truthy (w.flag "mine_seeded")) && !(inCombat w) then
      let loc2 := { loc0 with visited := true }
      let w1 := { w with
        locations := dictSet w.locations w.player.location loc2,
        flags := dictSet (dictSet w.flags "mine_seeded" (.bool true)) "in_combat" (.bool true),
        monster := some { key := "mine_rat", name := "Mine Rat", hp := 8,
                          attack_min := 1, attack_max := 2 } }
      some (w1, loc2.description ++ getCreatureArt "Mine Rat" ++
        "\nA large mine rat scurries out from behind the ore pile! You are in combat.\nCommands: attack, defend, flee")
    else if loc0.key == "deep_ruins" && truthy (w.flag "guardian_defeated") then
      let loc1 := if loc0.items.contains "ancient_scroll" then loc0
        else { loc0 with items := loc0.items ++ ["ancient_scroll"] }
      let loc2 := { loc1 with visited := true }
      let w1 := { w with locations := dictSet w.locations w.player.location loc2 }
      (displayTail w1 loc2).map (fun msg => (w1, msg))
    else
      let loc2 := { loc0 with visited := true }
      let w1 := { w with locations := dictSet w.locations w.player.location loc2 }
      (displayTail w1 loc2).map (fun msg => (w1, msg))
  else
    (displayTail w loc0).map (fun msg => (w, msg))

/-- The per-monster-key gold reward table inside `do_attack`'s victory
branch. -/
def bossGold (key : String) : Int :=
  if key == "cave_beast" then 12
  else if key == "ancient_guardian" then 15
  else if key == "tower_guardian" then 25
  else if key == "mine_rat" then 3
  else if key == "forest_wolf" then 4
  else if key == "cave_spider" then 3
  else if key == "mine_bat" then 2
  else if key == "stone_imp" then 5
  else 0

/-- The explicit boss-key allowlist used by `do_flee`. -/
def bossKeys : List String := ["cave_beast", "ancient_guardian", "tower_guardian"]

/-- `do_attack`.  `pdmg` stands for the `player_attack_damage` roll
(uniform on `[base−variance, base+variance]` with `base = stats["attack"]`
and `variance = max(1, base // 4)`); `mroll` for the
`monster_attack_damage` roll (uniform on `[attack_min, attack_max]`).
`none` models the TypeError/AttributeError raised when the player's stat
fold fails or `w.monster` is `None` while `in_combat` is set. -/
def doAttack (w : World) (pdmg mroll : Int) : Option (World × String) :=
  if !(inCombat w) then some (w, "There's nothing to attack.")
  else do
    let st ← getPlayerStats w
    let m ← w.monster
    let mhp2 := m.hp - pdmg
    let foeShown := max mhp2 0
    let attackText := s!"You strike the {m.name} for {pdmg} damage. (Foe HP {foeShown})"
    if mhp2 ≤ 0 then
      let w1 := { w with flags := dictSet w.flags "in_combat" (.bool false),
                         monster := none }
      let victoryText := s!"The {m.name} collapses. You are victorious!"
      let goldReward := bossGold m.key
      let w2 := if goldReward > 0 then
          { w1 with player := { w1.player with gold := w1.player.gold + goldReward } }
        else w1
      let goldLines := if goldReward > 0 then
          [s!"You find {goldReward} gold on the {m.name}!"] else []
      if m.key == "ancient_guardian" then do
        let loc ← dictGet w2.locations w2.player.location
        let loc1 := if loc.items.contains "ancient_scroll" then loc
          else { loc with items := loc.items ++ ["ancient_scroll"] }
        let w3 := { w2 with
          flags := dictSet w2.flags "guardian_defeated" (.bool true),
          locations := dictSet w2.locations w2.player.location loc1 }
        let lines := [attackText, victoryText] ++ goldLines ++
          ["The path to the ancient scroll is now clear!",
           "You see an ancient scroll among the ruins!"]
        let w4 := if w3.player.achievements.contains "warrior" then w3
          else { w3 with player := { w3.player with
            achievements := w3.player.achievements ++ ["warrior"] } }
        let lines2 := if w3.player.achievements.contains "warrior" then lines
          else lines ++ [showAchievementNotification "warrior"]
        some (w4, joinWith "\n" lines2)
      else if m.key == "tower_guardian" then
        let w3 := { w2 with
          flags := dictSet (dictSet w2.flags "final_boss_defeated" (.bool true))
            "game_completed" (.bool true),
          player := { w2.player with
            quests := dictSet w2.player.quests "final_treasure" "completed" } }
        let lines := [attackText, victoryText] ++ goldLines ++
          ["🏆 The Tower Guardian falls! You have completed your hero's journey! 🏆",
           "You claim the ancient treasure vault filled with gold and magical artifacts!"]
        let w4 := if w3.player.achievements.contains "warrior" then w3
          else { w3 with player := { w3.player with
            achievements := w3.player.achievements ++ ["warrior"] } }
        let lines2 := if w3.player.achievements.contains "warrior" then lines
          else lines ++ [showAchievementNotification "warrior"]
        some (w4, joinWith "\n" lines2)
      else
        let lines := [attackText, victoryText] ++ goldLines
        let w4 := if w2.player.achievements.contains "warrior" then w2
          else { w2 with player := { w2.player with
            achievements := w2.player.achievements ++ ["warrior"] } }
        let lines2 := if w2.player.achievements.contains "warrior" then lines
          else lines ++ [showAchievementNotification "warrior"]
        some (w4, joinWith "\n" lines2)
    else
      let mdmg := max 1 (mroll - st.defense)
      let php2 := w.player.hp - mdmg
      let shown := max php2 0
      let damageText := s!"The {m.name} hits you for {mdmg}. (Your HP {shown})"
      let w1 := { w with monster := some { m with hp := mhp2 },
                         player := { w.player with hp := php2 } }
      if php2 ≤ 0 then
        some ({ w1 with flags := dictSet (dictSet w1.flags "in_combat" (.bool false)) "game_over" (.bool true) },
          joinWith "\n" [attackText, damageText,
            "You fall to the ground. Darkness closes in."])
      else
        some (w1, joinWith "\n" [attackText, damageText])

/-- `do_defend`: retaliation damage floored at 0 (not 1), `+2` defending
bonus.  `mroll` is the `monster_attack_damage` roll. -/
def doDefend (w : World) (mroll : Int) : Option (World × String) :=
  if !(inCombat w) then some (w, "You're not in combat.")
  else do
    let st ← getPlayerStats w
    let m ← w.monster
    let defenseBonus := st.defense + 2
    let mdmg := max 0 (mroll - defenseBonus)
    let php2 := w.player.hp - mdmg
    let shown := max php2 0
    let out := s!"You brace yourself and reduce the blow. You take {mdmg}. (Your HP {shown})"
    let w1 := { w with player := { w.player with hp := php2 },
                       monster := some m }
    if php2 ≤ 0 then
      some ({ w1 with flags := dictSet (dictSet w1.flags "in_combat" (.bool false)) "game_over" (.bool true) },
        out ++ "\nYou collapse.")
    else
      some (w1, out)

/-- `do_flee`.  `success` stands for `random.random() < 0.6`; `mroll` for
the retaliation roll on failure.  On success the boss stash is keyed by
the location the player (and hence the boss) occupies at flee time, then
the player is moved to `forest_path` and `describe_location` runs there. -/
def doFlee (w : World) (success : Bool) (mroll : Int) : Option (World × String) :=
  if !(inCombat w) then some (w, "You're not in combat.")
  else if success then
    let flags1 := dictSet w.flags "in_combat" (.bool false)
    let curLoc := w.player.location
    let flags2 :=
      match w.monster with
      | some m =>
        if bossKeys.contains m.key then
          dictSet (dictSet flags1 (curLoc ++ "_boss_hp") (.int m.hp))
            (curLoc ++ "_boss_key") (.str m.key)
        else flags1
      | none => flags1
    let w1 := { w with flags := flags2, monster := none,
                       player := { w.player with location := "forest_path" } }
    (describeLocation w1).map (fun p =>
      (p.1, "You sprint for the exit and escape to the forest path!\n" ++ p.2))
  else do
    let m ← w.monster
    let st ← getPlayerStats w
    let mdmg := max 1 (mroll - st.defense)
    let php2 := w.player.hp - mdmg
    let shown := max php2 0
    let out := s!"You try to flee but stumble! The {m.name} hits you for {mdmg}. (Your HP {shown})"
    let w1 := { w with player := { w.player with hp := php2 } }
    if php2 ≤ 0 then
      some ({ w1 with flags := dictSet (dictSet w1.flags "in_combat" (.bool false)) "game_over" (.bool true) },
        out ++ "\nYou collapse.")
    else
      some (w1, out)

/-- `take_item`.  `none` models the KeyError when the player's location is
missing from the location map. -/
def takeItem (w : World) (item : String) : Option (World × String) :=
  if inCombat w then some (w, "No time to snatch items mid-fight!")
  else do
    let loc ← dictGet w.locations w.player.location
    if !(loc.items.contains item) then
      some (w, s!"You don't see a '{item}' here.")
    else
      let loc1 := { loc with items := loc.items.erase item }
      let w1 := { w with
        locations := dictSet w.locations w.player.location loc1,
        player := { w.player with inventory := w.player.inventory ++ [item] } }
      let itemArt := getItemArt item
      if item == "glimmering_gem" &&
          !(dictGet w1.player.quests "clear_cave" == some "completed") then
        some ({ w1 with player := { w1.player with
            quests := dictSet w1.player.quests "clear_cave" "completed" } },
          s!"You take the {item}. The gem pulses with mysterious energy. Perhaps Elder Theron knows its purpose.{itemArt}")
      else if item == "iron_ore" &&
          !(dictGet w1.player.quests "prove_worth" == some "completed") then
        some ({ w1 with player := { w1.player with
            quests := dictSet w1.player.quests "prove_worth" "completed" } },
          s!"You take the {item}. This should prove your worth to the blacksmith.{itemArt}")
      else if item == "ancient_scroll" &&
          !(dictGet w1.player.quests "retrieve_scroll" == some "completed") then
        some ({ w1 with player := { w1.player with
            quests := dictSet w1.player.quests "retrieve_scroll" "completed",
            gold := w1.player.gold + 8 } },
          s!"You take the {item}. Ancient runes cover its surface - the blacksmith might understand these.{itemArt}" ++
            "\n(Quest completed: Retrieve the Scroll)\n(Quest reward: +8 gold!)")
      else
        some (w1, s!"You take the {item}.")

/-- `drop_item`: removes the first inventory occurrence and puts the item
on the current location's ground.  The source never checks the equipment
slots here. -/
def dropItem (w : World) (item : String) : Option (World × String) :=
  if inCombat w then some (w, "Not wise to drop things mid-battle.")
  else if !(w.player.inventory.contains item) then
    some (w, s!"You're not carrying a '{item}'.")
  else do
    let loc ← dictGet w.locations w.player.location
    some ({ w with
        player := { w.player with inventory := w.player.inventory.erase item },
        locations := dictSet w.locations w.player.location
          { loc with items := loc.items ++ [item] } },
      s!"You drop the {item}.")

/-- `equip_item`.  `none` models the KeyError when the currently occupied
slot references a key missing from the catalog. -/
def equipItem (w : World) (itemKey : String) : Option (World × String) :=
  if !(w.player.inventory.contains itemKey) then
    some (w, s!"You don't have a '{itemKey}' to equip.")
  else
    match dictGet ITEMS itemKey with
    | none => some (w, s!"'{itemKey}' cannot be equipped.")
    | some item =>
      if !item.equipable then
        some (w, s!"'{item.name}' cannot be equipped.")
      else if item.category == "weapon" then
        match w.player.equipment.weapon with
        | some oldKey => do
          let oldItem ← dictGet ITEMS oldKey
          some ({ w with player := { w.player with
              equipment := { w.player.equipment with weapon := some itemKey } } },
            s!"You equip the {item.name} and put away the {oldItem.name}.")
        | none =>
          some ({ w with player := { w.player with
              equipment := { w.player.equipment with weapon := some itemKey } } },
            s!"You equip the {item.name}.")
      else if item.category == "armor" then
        match w.player.equipment.armor with
        | some oldKey => do
          let oldItem ← dictGet ITEMS oldKey
          some ({ w with player := { w.player with
              equipment := { w.player.equipment with armor := some itemKey } } },
            s!"You equip the {item.name} and remove the {oldItem.name}.")
        | none =>
          some ({ w with player := { w.player with
              equipment := { w.player.equipment with armor := some itemKey } } },
            s!"You equip the {item.name}.")
      else if item.category == "accessory" then
        match w.player.equipment.accessory with
        | some oldKey => do
          let oldItem ← dictGet ITEMS oldKey
          some ({ w with player := { w.player with
              equipment := { w.player.equipment with accessory := some itemKey } } },
            s!"You equip the {item.name} and remove the {oldItem.name}.")
        | none =>
          some ({ w with player := { w.player with
              equipment := { w.player.equipment with accessory := some itemKey } } },
            s!"You equip the {item.name}.")
      else
        some (w, s!"'{item.name}' cannot be equipped in any slot.")

/-- `unequip_item`. -/
def unequipItem (w : World) (slot : String) : Option (World × String) :=
  let slotL := pyLower slot
  if slotL == "weapon" && (w.player.equipment.weapon).isSome then do
    let key ← w.player.equipment.weapon
    let item ← dictGet ITEMS key
    some ({ w with player := { w.player with
        equipment := { w.player.equipment with weapon := none } } },
      s!"You unequip the {item.name}.")
  else if slotL == "armor" && (w.player.equipment.armor).isSome then do
    let key ← w.player.equipment.armor
    let item ← dictGet ITEMS key
    some ({ w with player := { w.player with
        equipment := { w.player.equipment with armor := none } } },
      s!"You unequip the {item.name}.")
  else if slotL == "accessory" && (w.player.equipment.accessory).isSome then do
    let key ← w.player.equipment.accessory
    let item ← dictGet ITEMS key
    some ({ w with player := { w.player with
        equipment := { w.player.equipment with accessory := none } } },
      s!"You unequip the {item.name}.")
  else
    some (w, s!"No item equipped in {slotL} slot.")

/-- `use_item` (consumables; the `"full"` heal restores to max). -/
def useItem (w : World) (itemKey : String) : World × String :=
  if !(w.player.inventory.contains itemKey) then
    (w, s!"You don't have a '{itemKey}' to use.")
  else
    match dictGet ITEMS itemKey with
    | none => (w, s!"You cannot use '{itemKey}'.")
    | some item =>
      if item.category != "consumable" then
        (w, s!"'{item.name}' is not usable.")
      else
        let w1 := { w with player := { w.player with
          inventory := w.player.inventory.erase itemKey } }
        match dictGet item.stats "heal" with
        | none => (w1, s!"You use the {item.name}.")
        | some healVal =>
          if w1.player.hp ≥ w1.player.max_hp then
            ({ w1 with player := { w1.player with
                inventory := w1.player.inventory ++ [itemKey] } },
              s!"You're already at full health! The {item.name} remains unused.")
          else
            match healVal with
            | .full =>
              let hp2 := w1.player.max_hp
              let mhp := w1.player.max_hp
              ({ w1 with player := { w1.player with hp := hp2 } },
                s!"You use the {item.name} and recover full HP! (HP: {hp2}/{mhp})")
            | .int heal =>
              let hp2 := min w1.player.max_hp (w1.player.hp + heal)
              let actual := hp2 - w1.player.hp
              let mhp := w1.player.max_hp
              ({ w1 with player := { w1.player with hp := hp2 } },
                s!"You use the {item.name} and recover {actual} HP. (HP: {hp2}/{mhp})")

/-- `buy_item`.  `none` models the KeyError when the player's location or
the selling NPC is missing from its map. -/
def buyItem (w : World) (npcKey item : String) : Option (World × String) :=
  if inCombat w then some (w, "Finish the fight first!")
  else do
    let loc ← dictGet w.locations w.player.location
    if !(loc.npcs.contains npcKey) then
      some (w, s!"There's no one named '{npcKey}' here.")
    else
      let stock := (dictGet SHOP npcKey).getD []
      match dictGet stock item with
      | none => some (w, s!"'{item}' isn't for sale.")
      | some price =>
        if w.player.gold < price then
          some (w, s!"You don't have enough gold (need {price}).")
        else do
          let npc ← dictGet w.npcs npcKey
          let pl := w.player.location
          let npc1 := { npc with memory := npc.memory ++
            [s!"Sold {item} to player for {price} gold at {pl}"] }
          some ({ w with
              player := { w.player with gold := w.player.gold - price,
                                        inventory := w.player.inventory ++ [item] },
              npcs := dictSet w.npcs npcKey npc1 },
            s!"You buy the {item} for {price} gold.")

/-- `update_relationship`: clamp points at 0, recompute the tier, emit the
tier-transition messages, log the reason. -/
def updateRelationship (npc : NPC) (pointsChange : Int) (reason : String) :
    NPC × List String :=
  let oldLevel := npc.relationship_level
  let pts := max 0 (npc.relationship_points + pointsChange)
  let level := if pts ≥ 76 then "ally" else if pts ≥ 26 then "friendly" else "neutral"
  let messages :=
    if oldLevel != level then
      if level == "friendly" && oldLevel == "neutral" then
        [s!"\n💚 {npc.name} seems to like you more now! (Relationship: Friendly)"]
      else if level == "ally" && oldLevel == "friendly" then
        [s!"\n💙 {npc.name} considers you a trusted ally! (Relationship: Ally)"]
      else if level == "neutral" && oldLevel == "friendly" then
        [s!"\n💔 {npc.name} seems less friendly towards you. (Relationship: Neutral)"]
      else []
    else []
  let npc1 := { npc with relationship_points := pts, relationship_level := level }
  let npc2 := if reason != "" then
      { npc1 with memory := npc1.memory ++
        [s!"Relationship changed by {pointsChange} ({reason})"] }
    else npc1
  (npc2, messages)

/-- `set_emotional_state`. -/
def setEmotionalState (npc : NPC) (emotion : String) (reason : String) :
    NPC × String :=
  let oldEmotion := npc.emotional_state
  let npc1 := { npc with emotional_state := emotion }
  let npc2 := if reason != "" then
      { npc1 with memory := npc1.memory ++
        [s!"Emotional state changed to {emotion} ({reason})"] }
    else npc1
  let indicator :=
    if emotion == "happy" then "😊" else if emotion == "sad" then "😢"
    else if emotion == "angry" then "😠" else if emotion == "excited" then "🤩"
    else if emotion == "worried" then "😰" else if emotion == "calm" then "😌"
    else "😐"
  (npc2, if oldEmotion != emotion then " " ++ indicator else "")

/-- `track_conversation_topic`. -/
def trackConversationTopic (npc : NPC) (topic : String) : NPC :=
  let t := pyLower topic
  let count := (dictGet npc.conversation_topics t).getD 0
  { npc with conversation_topics := dictSet npc.conversation_topics t (count + 1) }

/-- `any(k in text.lower() for k in ks)`. -/
def kwAny (text : String) (ks : List String) : Bool :=
  ks.any (fun k => strContains (pyLower text) k)

/-- `check_achievements`: award every newly satisfied achievement,
returning the new ones.  The unreachable `ancient_treasure` quest key is
kept as in the source. -/
def checkAchievements (w : World) : World × List String :=
  let step := fun (acc : List String × List String) (key : String) (cond : Bool) =>
    if !(acc.1.contains key) && cond then (acc.1 ++ [key], acc.2 ++ [key]) else acc
  let mainQuests := ["prove_worth", "clear_cave", "heal_elder", "retrieve_scroll",
    "forge_key", "final_treasure"]
  let completedMain := mainQuests.filter
    (fun q => dictGet w.player.quests q == some "completed")
  let talked := (w.npcs.filter (fun p =>
    p.2.memory.any (fun entry => strContains entry "Player said:"))).length
  let a0 := (w.player.achievements, ([] : List String))
  let a1 := step a0 "first_steps" (w.player.explored_areas.length ≥ 1)
  let a2 := step a1 "explorer" (w.player.explored_areas.length ≥ 5)
  let a3 := step a2 "completionist" (w.player.explored_areas.length ≥ 10)
  let a4 := step a3 "rich_merchant" (w.player.gold ≥ 50)
  let a5 := step a4 "quest_starter" (completedMain.length ≥ 1)
  let a6 := step a5 "hero" (completedMain.length ≥ 6)
  let a7 := step a6 "socializer" (talked ≥ 3)
  let a8 := step a7 "treasure_hunter"
    (dictGet w.player.quests "ancient_treasure" == some "completed")
  let a9 := step a8 "secret_keeper"
    (dictGet w.player.quests "lost_trinket" == some "completed")
  ({ w with player := { w.player with achievements := a9.1 } }, a9.2)

/-- `handle_quest_interactions` (the quest-trigger table consulted during
conversation).  `npcReply` stands for the external Dialogue Provider's
return value (`npc_reply_claude`), which produces display text only.  The
caller looks the NPC up as `w.npcs[npc_key]` and passes the object in;
that lookup is modelled here (`none` = its KeyError).  The result's
second component is `none` where the source returns `None`.  Relationship
and emotion updates mutate the NPC in place; their returned messages are
discarded by this function, as in the source. -/
def handleQuestInteractions (w : World) (npcKey text npcReply : String) :
    Option (World × Option String) := do
  let npc ← dictGet w.npcs npcKey
  if npcKey == "blacksmith" then
    if w.player.inventory.contains "iron_ore" &&
        kwAny text ["ore", "iron", "forge", "sword", "weapon", "craft", "make"] then
      let npc1 := { npc with memory := npc.memory ++
        ["Forged broad sword from iron ore for player."] }
      let npc2 := (updateRelationship npc1 15 "completing prove worth quest").1
      let npc3 := (setEmotionalState npc2 "excited" "impressed with player's dedication").1
      some ({ w with
          player := { w.player with
            inventory := (w.player.inventory.erase "iron_ore") ++ ["broad_sword"],
            quests := dictSet w.player.quests "prove_worth" "completed",
            gold := w.player.gold + 8 },
          npcs := dictSet w.npcs npcKey npc3 },
        some ("The blacksmith's eyes light up as he examines the ore. 'Fine quality iron! Let me forge you a proper weapon.' He works the metal with expert skill, creating a gleaming broad sword. \n\n(Quest completed: Prove Your Worth)\n(Received: Broad Sword - A superior weapon!)\n(Quest reward: +8 gold!)"))
    else if dictGet w.player.quests "prove_worth" == some "not_started" &&
        kwAny text ["work", "help", "sword", "weapon"] then
      let npc1 := { npc with memory := npc.memory ++
        ["Asked player to prove their worth by bringing iron ore."] }
      some ({ w with
          player := { w.player with
            quests := dictSet w.player.quests "prove_worth" "started" },
          npcs := dictSet w.npcs npcKey npc1 },
        some (npcReply ++ "\n\n(New quest started: Prove Your Worth - Get iron ore from the mine)"))
    else if w.player.inventory.contains "rusty_sword" &&
        dictGet w.player.quests "clear_cave" == some "not_started" &&
        kwAny text ["gem", "cave", "danger"] then
      let npc1 := { npc with memory := npc.memory ++
        ["Mentioned rumors of a gem in the cave."] }
      some ({ w with
          player := { w.player with
            quests := dictSet w.player.quests "clear_cave" "started" },
          npcs := dictSet w.npcs npcKey npc1 },
        some (npcReply ++ "\n\n(New quest started: Clear the Cave - Find the shimmering gem)"))
    else if w.player.inventory.contains "ancient_scroll" &&
        dictGet w.player.quests "forge_key" == some "not_started" &&
        kwAny text ["scroll", "runes", "forge", "key"] then
      let npc1 := { npc with memory := npc.memory ++
        ["Forged master key from ancient scroll for player."] }
      some ({ w with
          player := { w.player with
            inventory := (w.player.inventory.erase "ancient_scroll") ++ ["master_key"],
            quests := dictSet (dictSet w.player.quests "forge_key" "completed")
              "final_treasure" "started" },
          npcs := dictSet w.npcs npcKey npc1 },
        some ("The blacksmith studies the ancient runes carefully. 'Aye, I know these symbols! This speaks of a master key.' He works for hours at his forge, creating an ornate key that hums with power. \n\n(Quest completed: Forge the Key)\n(New quest started: Claim the Ancient Treasure - Use the key on the sealed tower!)"))
    else
      some (w, none)
  else if npcKey == "healer" then
    if kwAny text ["heal", "help", "hurt", "wounded", "hp", "health", "potion"] then
      if w.player.hp ≥ w.player.max_hp then
        some (w, some (npcReply ++ "\n\n'You look perfectly healthy to me, dear.'"))
      else if w.player.inventory.contains "magical_amulet" ||
          dictGet w.player.quests "heal_elder" == some "completed" then
        let npc1 := { npc with memory := npc.memory ++
          ["Healed the player for free as thanks for saving Elder Theron."] }
        let npc2 := (updateRelationship npc1 3 "grateful for saving the Elder").1
        let w1 := { w with
          player := { w.player with hp := w.player.max_hp },
          npcs := dictSet w.npcs npcKey npc2 }
        let hpNow := w1.player.hp
        let mhp := w1.player.max_hp
        some (w1, some (npcReply ++
          s!"\n\n'You saved Elder Theron! This healing is my gift to you.' Mira's magic flows through you, restoring your health!\n(Fully healed - FREE for saving the Elder! HP: {hpNow}/{mhp})"))
      else if w.player.gold ≥ 5 then
        let npc1 := { npc with memory := npc.memory ++
          ["Healed the player for 5 gold."] }
        let w1 := { w with
          player := { w.player with gold := w.player.gold - 5, hp := w.player.max_hp },
          npcs := dictSet w.npcs npcKey npc1 }
        let hpNow := w1.player.hp
        let mhp := w1.player.max_hp
        some (w1, some (npcReply ++
          s!"\n\n'Let me tend to those wounds.' Mira's magic flows through you, restoring your health!\n(Fully healed for 5 gold. HP: {hpNow}/{mhp})"))
      else
        some (w, some (npcReply ++
          "\n\n'I'd love to help, but healing costs 5 gold. Come back when you have enough.'"))
    else
      some (w, none)
  else if npcKey == "elder" then
    if w.player.inventory.contains "glimmering_gem" &&
        dictGet w.player.quests "heal_elder" == some "not_started" then
      let npc1 := { npc with memory := npc.memory ++
        ["Player has the gem that could break the curse."] }
      some ({ w with
          player := { w.player with
            quests := dictSet w.player.quests "heal_elder" "started" },
          npcs := dictSet w.npcs npcKey npc1 },
        some (npcReply ++ "\n\n(New quest started: Heal the Elder - The gem might break his curse)"))
    else if dictGet w.player.quests "heal_elder" == some "started" &&
        w.player.inventory.contains "glimmering_gem" &&
        kwAny text ["heal", "gem", "curse", "help"] then
      let npc1 := { npc with memory := npc.memory ++
        ["Healed by the gem, gave magical amulet to player."] }
      let npc2 := (updateRelationship npc1 20 "breaking the curse and saving his life").1
      let npc3 := (setEmotionalState npc2 "happy" "curse broken, feeling grateful").1
      some ({ w with
          player := { w.player with
            inventory := (w.player.inventory.erase "glimmering_gem") ++ ["magical_amulet"],
            max_hp := w.player.max_hp + 5,
            hp := w.player.hp + 5,
            quests := dictSet (dictSet w.player.quests "heal_elder" "completed")
              "retrieve_scroll" "started",
            gold := w.player.gold + 10 },
          npcs := dictSet w.npcs npcKey npc3 },
        some ("Elder Theron's color returns as the gem's power breaks his curse! 'Take this amulet, brave one. Now seek the ancient scroll in the deep ruins beyond the cave.' \n\n(Quest completed: Heal the Elder)\n(New quest started: Retrieve the Scroll)\n(+5 Max HP from magical amulet!)\n(Quest reward: +10 gold!)"))
    else
      some (w, none)
  else if npcKey == "wanderer" then
    if w.player.inventory.contains "ancient_trinket" &&
        kwAny text ["trinket", "medallion", "found", "artifact"] then
      let npc1 := { npc with memory := npc.memory ++
        ["Player returned the ancient trinket."] }
      let npc2 := (updateRelationship npc1 25 "returning precious family heirloom").1
      let npc3 := (setEmotionalState npc2 "happy" "overjoyed to have family trinket back").1
      let w1 := { w with
        player := { w.player with
          inventory := (w.player.inventory.erase "ancient_trinket") ++ ["elder_sword"] },
        npcs := dictSet w.npcs npcKey npc3 }
      let w2 := if w1.player.achievements.contains "trinket_returner" then w1
        else { w1 with player := { w1.player with
          achievements := w1.player.achievements ++ ["trinket_returner"] } }
      some (w2,
        some ("Kael's eyes fill with tears as he takes the trinket. 'You found it! My family's most precious heirloom!' He reaches into his pack and draws out a magnificent sword. 'This Elder Sword has been in my family for centuries. It's yours now - you've earned it a thousand times over.' \n\n(Hidden Quest completed: Lost Trinket)\n(Received: Elder Sword - A legendary weapon!)"))
    else if kwAny text ["search", "looking", "lost", "find", "trinket", "artifact"] then
      let npc1 := { npc with memory := npc.memory ++
        ["Told player about the ancient trinket."] }
      some ({ w with npcs := dictSet w.npcs npcKey npc1 },
        some (npcReply ++
          "\n\n'Ah, you understand my plight! I've lost my family's ancient trinket - a small medallion passed down for generations. I fear it may be hidden somewhere in the caves beyond the forest. If you could find it... I would reward you with something truly precious.'"))
    else
      some (w, none)
  else if npcKey == "miner" then
    if kwAny text ["cave", "hidden", "secret", "chamber", "passage", "room"] then
      let npc1 := { npc with memory := npc.memory ++
        ["Told player about the secret chamber in hidden cave."] }
      let npc2 := (updateRelationship npc1 5 "sharing valuable cave knowledge").1
      some ({ w with npcs := dictSet w.npcs npcKey npc2 },
        some (npcReply ++
          "\n\n'Aye, I worked them caves for forty years, I did. There's more to that hidden cave than meets the eye - behind some loose rocks on the eastern wall, there's a secret chamber. Most folk don't know about it, but I found it years ago. Might be somethin' valuable in there still.'"))
    else
      some (w, none)
  else
    some (w, none)

/-- `get_healing` (the direct `heal` command).  `confirm` stands for the
y/n line read from the player for the paid path. -/
def getHealing (w : World) (confirm : Bool) : Option (World × String) :=
  if inCombat w then some (w, "You can't get healing while in combat!")
  else if w.player.location != "healer_tent" then
    some (w, "You need to be at the healer's tent to get healing.")
  else do
    let loc ← dictGet w.locations w.player.location
    if !(loc.npcs.contains "healer") then
      some (w, "The healer isn't here right now.")
    else if w.player.hp ≥ w.player.max_hp then
      some (w, "You're already at full health!")
    else do
      let healer ← dictGet w.npcs "healer"
      if w.player.inventory.contains "magical_amulet" ||
          dictGet w.player.quests "heal_elder" == some "completed" then
        let h1 := { healer with memory := healer.memory ++
          ["Healed the player for free as thanks for saving Elder Theron."] }
        let h2 := (updateRelationship h1 3 "grateful for saving the Elder").1
        let w1 := { w with player := { w.player with hp := w.player.max_hp },
                           npcs := dictSet w.npcs "healer" h2 }
        let hpNow := w1.player.hp
        let mhp := w1.player.max_hp
        some (w1,
          "'You saved Elder Theron! This healing is my gift to you.'\nMira's magic flows through you, restoring your health!\n" ++
            s!"(Fully healed - FREE for saving the Elder! HP: {hpNow}/{mhp})")
      else if w.player.gold < 5 then
        some (w, "You need 5 gold for healing. Come back when you have enough.")
      else if confirm then
        let h1 := { healer with memory := healer.memory ++
          ["Healed the player for 5 gold."] }
        let w1 := { w with
          player := { w.player with gold := w.player.gold - 5, hp := w.player.max_hp },
          npcs := dictSet w.npcs "healer" h1 }
        let hpNow := w1.player.hp
        let mhp := w1.player.max_hp
        some (w1,
          "'Let me tend to those wounds.'\nMira's magic flows through you, restoring your health!\n" ++
            s!"(Fully healed for 5 gold. HP: {hpNow}/{mhp})")
      else
        some (w, "Healing cancelled.")

/-- `move_player`.  `encRoll` stands for `random.randint(1, 100)`, the
per-entry encounter roll.  Dashboard updates and autosaves are external
side effects and dropped. -/
def movePlayer (w : World) (destKey : String) (encRoll : Int) :
    Option (World × String) :=
  if inCombat w then
    some (w, "You can't move while in combat! Try: attack, defend, or flee.")
  else do
    let cur ← dictGet w.locations w.player.location
    if !(cur.exits.contains destKey) then
      some (w, "You can't go that way.")
    else if destKey == "sealed_tower" &&
        !(w.player.inventory.contains "master_key") then
      some (w, "The tower door is sealed with arcane locks. You need a special key to enter.")
    else if destKey == "sealed_tower" &&
        dictGet w.player.quests "final_treasure" == some "started" then
      if !(truthy (w.flag "final_boss_defeated")) then
        some ({ w with
            monster := some { key := "tower_guardian", name := "Tower Guardian",
                              hp := 45, attack_min := 5, attack_max := 9 },
            flags := dictSet (dictSet w.flags "in_combat" (.bool true))
              "in_final_battle" (.bool true) },
          "The master key glows as you approach! The seals dissolve and the tower door swings open.\nInside the treasure vault, a massive Tower Guardian awakens to protect the ancient treasures!" ++
            getCreatureArt "Tower Guardian" ++
            "\nThe final battle begins! You are in combat.\nCommands: attack, defend, flee")
      else
        some ({ w with
            player := { w.player with
              quests := dictSet w.player.quests "final_treasure" "completed" },
            flags := dictSet w.flags "game_completed" (.bool true) },
          "With the Tower Guardian defeated, you claim the ancient treasure vault filled with gold and magical artifacts! You have completed your hero's journey!\n\n🏆 CONGRATULATIONS! YOU HAVE COMPLETED THE GAME! 🏆")
    else
      let w1 := { w with player := { w.player with
        previous_location := w.player.location,
        location := destKey } }
      let w2 := if w1.player.explored_areas.contains destKey then w1
        else { w1 with player := { w1.player with
          explored_areas := w1.player.explored_areas ++ [destKey] } }
      if !(inCombat w2) && destKey == "forest_path" && encRoll ≤ 20 then
        some ({ w2 with
            monster := some { key := "forest_wolf", name := "Forest Wolf",
                              hp := 12, attack_min := 2, attack_max := 4 },
            flags := dictSet w2.flags "in_combat" (.bool true) },
          "You enter the forest path..." ++ getCreatureArt "Forest Wolf" ++
            "\nA hungry forest wolf prowls out from behind the trees! You are in combat.\nCommands: attack, defend, flee")
      else if !(inCombat w2) && destKey == "hidden_cave" &&
          truthy (w2.flag "cave_seeded") && encRoll ≤ 15 then
        some ({ w2 with
            monster := some { key := "cave_spider", name := "Cave Spider",
                              hp := 10, attack_min := 1, attack_max := 3 },
            flags := dictSet w2.flags "in_combat" (.bool true) },
          "You enter the cave..." ++ getCreatureArt "Cave Spider" ++
            "\nA cave spider drops from the ceiling! You are in combat.\nCommands: attack, defend, flee")
      else if !(inCombat w2) && destKey == "iron_mine" &&
          truthy (w2.flag "mine_seeded") && encRoll ≤ 15 then
        some ({ w2 with
            monster := some { key := "mine_bat", name := "Mine Bat",
                              hp := 8, attack_min := 1, attack_max := 2 },
            flags := dictSet w2.flags "in_combat" (.bool true) },
          "You enter the mine..." ++ getCreatureArt "Mine Bat" ++
            "\nA mine bat swoops down from the shadows! You are in combat.\nCommands: attack, defend, flee")
      else if !(inCombat w2) && destKey == "deep_ruins" &&
          truthy (w2.flag "guardian_defeated") && encRoll ≤ 10 then
        some ({ w2 with
            monster := some { key := "stone_imp", name := "Stone Imp",
                              hp := 15, attack_min := 2, attack_max := 5 },
            flags := dictSet w2.flags "in_combat" (.bool true) },
          "You enter the ruins..." ++ getCreatureArt "Stone Imp" ++
            "\nA stone imp emerges from the rubble! You are in combat.\nCommands: attack, defend, flee")
      else
        let w3 := (checkAchievements w2).1
        -- show_achievement_notification is the empty stub, so the
        -- notification suffix is empty and, being falsy, is not appended.
        describeLocation w3

/-- `stats`: pure display screen (player stats), no mutation; its text is
presentation-only and modelled as empty. -/
def statsView (_w : World) : String := ""

/-- `show_enhanced_inventory` (via `inventory`): pure display screen,
modelled as empty text. -/
def inventoryView (_w : World) : String := ""

/-- `quests`: pure display screen, modelled as empty text. -/
def questsView (_w : World) : String := ""

/-- `show_shop`: pure display screen, modelled as empty text. -/
def shopView (_w : World) : String := ""

/-- `get_mini_map`, the world-map/dashboard, achievement and relationship
screens, the music status line and `list_saves`: pure display or
external-singleton interactions, modelled as empty text. -/
def displayStub : String := ""

/-- The outcome of one `parse_and_exec` dispatch.  `saveCmd`/`loadCmd`
model the persistence commands (their file-system round trip is the
`worldToDict`/`dictToWorld` pair below); `conv` models entering the
interactive conversation sub-mode (`conversation_mode` then blocks on
further input lines); `pyError` marks an uncaught Python exception
escaping the dispatcher. -/
inductive ExecResult where
  | ok (w : World) (msg : String)
  | saveCmd (w : World) (name : String)
  | loadCmd (w : World) (name : String)
  | conv (w : World) (npcKey : String)
  | quitGame (w : World)
  | pyError (w : World) (msg : String)
deriving Repr, DecidableEq

/-- The random inputs one dispatch may consume: the player-damage roll,
the monster-damage roll, the flee-success draw, the encounter roll, and
the y/n confirmation line read by `get_healing`. -/
structure Rng where
  pdmg : Int := 0
  mroll : Int := 0
  fleeOk : Bool := false
  encRoll : Int := 100
  confirm : Bool := false
deriving Repr, DecidableEq

/-- Wrap an `Option`-returning operation as a dispatch outcome. -/
def liftExec (w : World) (o : Option (World × String)) : ExecResult :=
  match o with
  | some p => .ok p.1 p.2
  | none => .pyError w "uncaught exception"

/-- The entry checks of `conversation_mode` (the interactive loop itself
then blocks on input; entering it is the `conv` outcome). -/
def conversationEnter (w : World) (npcKey : String) : ExecResult :=
  if inCombat w then .ok w "No time to chat—you're in a fight!"
  else
    match dictGet w.locations w.player.location with
    | none => .pyError w "uncaught exception"
    | some loc =>
      if !(loc.npcs.contains npcKey) then
        .ok w (s!"There's no one named '{npcKey}' here.")
      else
        let flags1 := dictSet (dictSet w.flags "in_conversation" (.bool true))
          "conversation_npc" (.str npcKey)
        .conv { w with flags := flags1 } npcKey

/-- `parse_and_exec`, branch for branch in source order.  The `ask` branch
and the NPC-name-first branch call `talk_to`, a function the source
references but never defines (its former body survives only as dead code
inside `npc_reply_claude`), so reaching them raises
`NameError: name 'talk_to' is not defined`; in `repl` the
`parse_and_exec` call sits outside the `try` block, so the exception ends
the session. -/
def parseAndExec (w : World) (raw : String) (rng : Rng) : ExecResult :=
  let s := pyStrip raw
  if s == "" then .ok w "Say or do something."
  else
  let low := pyLower s
  if inCombat w then
    if low == "attack" then liftExec w (doAttack w rng.pdmg rng.mroll)
    else if low == "defend" then liftExec w (doDefend w rng.mroll)
    else if low == "flee" then liftExec w (doFlee w rng.fleeOk rng.mroll)
    else if low == "look" || low == "l" then liftExec w (describeLocation w)
    else if low == "inventory" || low == "inv" || low == "i" || low == "stats" then
      .ok w (statsView w)
    else .ok w "You're in combat! Try: attack, defend, or flee."
  else
  if pyStartsWith low "go " || pyStartsWith low "move " || pyStartsWith low "walk " then
    let target := replaceChar ' ' '_' ((wsSplitOnce low).getD 1 "")
    if w.player.location == "hidden_cave" &&
        ["hidden_door", "secret_door", "door", "secret_chamber", "chamber"].any
          (fun k => strContains target k) then
      let w1 := { w with player := { w.player with
        previous_location := w.player.location,
        location := "secret_chamber" } }
      let w2 := if w1.player.explored_areas.contains "secret_chamber" then w1
        else { w1 with player := { w1.player with
          explored_areas := w1.player.explored_areas ++ ["secret_chamber"] } }
      let w3 := (checkAchievements w2).1
      match describeLocation w3 with
      | some p => .ok p.1 (p.2 ++
          "\n\nYou squeeze through a gap behind the loose rocks and discover a hidden chamber!")
      | none => .pyError w3 "uncaught exception"
    else liftExec w (movePlayer w target rng.encRoll)
  else if low == "look" || low == "l" then liftExec w (describeLocation w)
  else if low == "inventory" || low == "inv" || low == "i" then .ok w (inventoryView w)
  else if low == "stats" then .ok w (statsView w)
  else if low == "quests" || low == "quest" || low == "q" then .ok w (questsView w)
  else if pyStartsWith low "take " then
    liftExec w (takeItem w (replaceChar ' ' '_' (pyStrip ((pySplitOnce s " ").getD 1 ""))))
  else if pyStartsWith low "drop " then
    liftExec w (dropItem w (replaceChar ' ' '_' (pyStrip ((pySplitOnce s " ").getD 1 ""))))
  else if low == "shop" then .ok w (shopView w)
  else if pyStartsWith low "buy " then
    let item := replaceChar ' ' '_' (pyStrip ((pySplitOnce s " ").getD 1 ""))
    match dictGet w.locations w.player.location with
    | none => .pyError w "uncaught exception"
    | some loc =>
      match loc.npcs.find? (fun n => (dictGet SHOP n).isSome) with
      | none => .ok w "There's no shop here."
      | some owner => liftExec w (buyItem w owner item)
  else if pyStartsWith low "equip " then
    liftExec w (equipItem w (replaceChar ' ' '_' (pyStrip ((pySplitOnce s " ").getD 1 ""))))
  else if pyStartsWith low "unequip " then
    liftExec w (unequipItem w (pyStrip ((pySplitOnce s " ").getD 1 "")))
  else if pyStartsWith low "use " then
    let p := useItem w (replaceChar ' ' '_' (pyStrip ((pySplitOnce s " ").getD 1 "")))
    .ok p.1 p.2
  else if low == "heal" || low == "healing" || low == "get healing" then
    liftExec w (getHealing w rng.confirm)
  else if pyStartsWith low "talk to " || pyStartsWith low "talk " then
    let parts := pySplit low
    if parts.length ≥ 2 && parts.getD 1 "" == "to" then
      if parts.length < 3 then .ok w "Talk to whom?"
      else conversationEnter w (parts.getD 2 "")
    else
      if parts.length < 2 then .ok w "Talk to whom?"
      else conversationEnter w (parts.getD 1 "")
  else if pyStartsWith low "ask " then
    let parts := pySplit low
    if parts.length ≥ 4 && parts.getD 2 "" == "about" then
      .pyError w "NameError: name 'talk_to' is not defined"
    else .ok w "Try: ask <npc> about <topic>."
  else if pyStartsWith low "save" then
    let parts := pySplit s
    .saveCmd w (parts.getD 1 "quicksave")
  else if pyStartsWith low "load" then
    let parts := pySplit s
    .loadCmd w (parts.getD 1 "quicksave")
  else if low == "music" || low == "music status" then .ok w displayStub
  else if low == "music off" || low == "music disable" || low == "mute" then
    .ok w "🔇 Music disabled"
  else if low == "music on" || low == "music enable" || low == "unmute" then
    .ok w "🎵 Music enabled"
  else if pyStartsWith low "volume " then .ok w displayStub
  else if low == "music restart" || low == "restart music" ||
      low == "music reset" || low == "reset music" then .ok w displayStub
  else if low == "saves" || low == "list" then .ok w displayStub
  else if low == "exit" then
    if w.player.previous_location == "" then
      .ok w "You haven't been anywhere yet to exit back to."
    else if inCombat w then
      .ok w "You can't exit while in combat! Try: attack, defend, or flee."
    else liftExec w (movePlayer w w.player.previous_location rng.encRoll)
  else if low == "map" || low == "m" then .ok w displayStub
  else if low == "worldmap" || low == "world" || low == "fullmap" || low == "dashboard" then
    .ok w displayStub
  else if low == "hidemap" || low == "closemap" || low == "hidedashboard" ||
      low == "closedashboard" then .ok w displayStub
  else if low == "achievements" || low == "ach" then .ok w displayStub
  else if low == "relationships" || low == "relationship" || low == "rel" then
    .ok w displayStub
  else if low == "quit" then .quitGame w
  else
    let first := (pySplit low).getD 0 ""
    if (dictGet w.npcs first).isSome then
      match dictGet w.locations w.player.location with
      | none => .pyError w "uncaught exception"
      | some loc =>
        if loc.npcs.contains first then
          .pyError w "NameError: name 'talk_to' is not defined"
        else .ok w "I don't understand. Type 'help' for commands."
    else .ok w "I don't understand. Type 'help' for commands."

/-- A JSON value, the document form `world_to_dict` produces and
`json.dump`/`json.load` round-trip exactly (only null, bool, int, str,
array and object shapes occur; no floats). -/
inductive JValue where
  | null
  | bool (b : Bool)
  | int (n : Int)
  | str (s : String)
  | arr (xs : List JValue)
  | obj (fields : List (String × JValue))

/-- A list of strings as a JSON array. -/
def jStrList (xs : List String) : JValue := .arr (xs.map .str)

/-- An optional string as null-or-string (equipment slots). -/
def jOptStr : Option String → JValue
  | none => .null
  | some s => .str s

/-- A flag value as its JSON form. -/
def flagToJ : FlagVal → JValue
  | .bool b => .bool b
  | .int n => .int n
  | .str s => .str s

/-- `asdict(equipment)`. -/
def equipmentToJ (e : Equipment) : JValue :=
  .obj [("weapon", jOptStr e.weapon), ("armor", jOptStr e.armor),
        ("accessory", jOptStr e.accessory)]

/-- `asdict(player)` (fields in dataclass order). -/
def playerToJ (p : Player) : JValue :=
  .obj [("location", .str p.location),
        ("inventory", jStrList p.inventory),
        ("quests", .obj (p.quests.map (fun q => (q.1, JValue.str q.2)))),
        ("gold", .int p.gold),
        ("hp", .int p.hp),
        ("max_hp", .int p.max_hp),
        ("previous_location", .str p.previous_location),
        ("explored_areas", jStrList p.explored_areas),
        ("achievements", jStrList p.achievements),
        ("equipment", equipmentToJ p.equipment)]

/-- `asdict(location)`. -/
def locationToJ (l : Location) : JValue :=
  .obj [("key", .str l.key),
        ("description", .str l.description),
        ("exits", jStrList l.exits),
        ("npcs", jStrList l.npcs),
        ("items", jStrList l.items),
        ("visited", .bool l.visited)]

/-- `asdict(npc)`. -/
def npcToJ (n : NPC) : JValue :=
  .obj [("key", .str n.key),
        ("name", .str n.name),
        ("personality", .str n.personality),
        ("memory", jStrList n.memory),
        ("relationship_level", .str n.relationship_level),
        ("relationship_points", .int n.relationship_points),
        ("emotional_state", .str n.emotional_state),
        ("conversation_topics", .obj (n.conversation_topics.map
          (fun q => (q.1, JValue.int q.2))))]

/-- `asdict(monster)`. -/
def monsterToJ (m : Monster) : JValue :=
  .obj [("key", .str m.key),
        ("name", .str m.name),
        ("hp", .int m.hp),
        ("attack_min", .int m.attack_min),
        ("attack_max", .int m.attack_max)]

/-- `world_to_dict`.  `saveTime` stands for `datetime.now().isoformat()`
(external clock). -/
def worldToDict (w : World) (saveTime : String) : JValue :=
  .obj [("player", playerToJ w.player),
        ("locations", .obj (w.locations.map (fun q => (q.1, locationToJ q.2)))),
        ("npcs", .obj (w.npcs.map (fun q => (q.1, npcToJ q.2)))),
        ("flags", .obj (w.flags.map (fun q => (q.1, flagToJ q.2)))),
        ("monster", match w.monster with | none => .null | some m => monsterToJ m),
        ("save_time", .str saveTime)]

/-- Decode a JSON array of strings. -/
def decodeStrs : List JValue → Option (List String)
  | [] => some []
  | .str s :: rest => (decodeStrs rest).map (fun t => s :: t)
  | _ => none

/-- Decode a JSON array position expected to hold strings. -/
def jToStrList : JValue → Option (List String)
  | .arr xs => decodeStrs xs
  | _ => none

/-- Decode every value of a JSON object with `f`, keeping key order. -/
def decodePairs (f : JValue → Option α) :
    List (String × JValue) → Option (List (String × α))
  | [] => some []
  | (k, v) :: rest =>
    match f v with
    | none => none
    | some a => (decodePairs f rest).map (fun t => (k, a) :: t)

/-- Flag values come back from JSON as the bool/int/str they were. -/
def flagFromJ : JValue → Option FlagVal
  | .bool b => some (.bool b)
  | .int n => some (.int n)
  | .str s => some (.str s)
  | _ => none

/-- A quest-state value (a string). -/
def jStrOnly : JValue → Option String
  | .str s => some s
  | _ => none

/-- A conversation-topic count (an int). -/
def jIntOnly : JValue → Option Int
  | .int n => some n
  | _ => none

/-- A nullable string (an equipment slot). -/
def jOptStrD : JValue → Option (Option String)
  | .null => some none
  | .str s => some (some s)
  | _ => none

/-- `Location(**loc_data)`.  The constructor call accepts any key order
and omits defaulted fields; the serialized form always carries all six
fields in dataclass order, which is the shape accepted here (anything
else models the TypeError). -/
def locationFromJ : JValue → Option Location
  | .obj [("key", .str k), ("description", .str d), ("exits", ex),
          ("npcs", ns), ("items", its), ("visited", .bool v)] => do
    let exits ← jToStrList ex
    let npcs ← jToStrList ns
    let items ← jToStrList its
    some { key := k, description := d, exits := exits, npcs := npcs,
           items := items, visited := v }
  | _ => none

/-- `NPC(**npc_data)`, shape as serialized. -/
def npcFromJ : JValue → Option NPC
  | .obj [("key", .str k), ("name", .str nm), ("personality", .str pe),
          ("memory", mem), ("relationship_level", .str rl),
          ("relationship_points", .int rp), ("emotional_state", .str es),
          ("conversation_topics", .obj ct)] => do
    let memory ← jToStrList mem
    let topics ← decodePairs jIntOnly ct
    some { key := k, name := nm, personality := pe, memory := memory,
           relationship_level := rl, relationship_points := rp,
           emotional_state := es, conversation_topics := topics }
  | _ => none

/-- `Monster(**data["monster"])`, shape as serialized. -/
def monsterFromJ : JValue → Option Monster
  | .obj [("key", .str k), ("name", .str nm), ("hp", .int h),
          ("attack_min", .int lo), ("attack_max", .int hi)] =>
    some { key := k, name := nm, hp := h, attack_min := lo, attack_max := hi }
  | _ => none

/-- The equipment-compatibility coercion in `dict_to_world`: a dict with
any of the three slot keys becomes `Equipment(**kwargs)` filtered to the
Equipment fields (absent keys default to None); a dict with none of them
becomes a default Equipment; a non-dict value is left as-is in the source
and then poisons `Player(**...)`, modelled as the failure. -/
def equipmentFromJ : JValue → Option Equipment
  | .obj fields =>
    if (dictGet fields "weapon").isSome || (dictGet fields "armor").isSome ||
        (dictGet fields "accessory").isSome then do
      let wv ← match dictGet fields "weapon" with
        | none => some none
        | some j => jOptStrD j
      let av ← match dictGet fields "armor" with
        | none => some none
        | some j => jOptStrD j
      let cv ← match dictGet fields "accessory" with
        | none => some none
        | some j => jOptStrD j
      some { weapon := wv, armor := av, accessory := cv }
    else some {}
  | _ => none

/-- `Player(**player_data)` after the equipment coercion, shape as
serialized (all ten fields in dataclass order). -/
def playerFromJ : JValue → Option Player
  | .obj [("location", .str loc), ("inventory", inv), ("quests", .obj qs),
          ("gold", .int g), ("hp", .int h), ("max_hp", .int mh),
          ("previous_location", .str prev), ("explored_areas", ex),
          ("achievements", ach), ("equipment", eq)] => do
    let inventory ← jToStrList inv
    let quests ← decodePairs jStrOnly qs
    let explored ← jToStrList ex
    let achievements ← jToStrList ach
    let equipment ← equipmentFromJ eq
    some { location := loc, inventory := inventory, quests := quests,
           gold := g, hp := h, max_hp := mh, previous_location := prev,
           explored_areas := explored, achievements := achievements,
           equipment := equipment }
  | _ => none

/-- `dict_to_world`: rebuild locations, NPCs, the player (with equipment
coercion), the optional monster, and take `data.get("flags", {})`. -/
def dictToWorld : JValue → Option World
  | .obj fields => do
    let lj ← dictGet fields "locations"
    let locPairs ← match lj with
      | .obj ps => decodePairs locationFromJ ps
      | _ => none
    let nj ← dictGet fields "npcs"
    let npcPairs ← match nj with
      | .obj ps => decodePairs npcFromJ ps
      | _ => none
    let pj ← dictGet fields "player"
    let player ← playerFromJ pj
    let monster ← match dictGet fields "monster" with
      | some .null => some none
      | some mj => (monsterFromJ mj).map some
      | none => none
    let flagsJ := (dictGet fields "flags").getD (.obj [])
    let flags ← match flagsJ with
      | .obj ps => decodePairs flagFromJ ps
      | _ => none
    some { player := player, locations := locPairs, npcs := npcPairs,
           flags := flags, monster := monster }
  | _ => none

theorem decodeStrs_map (xs : List String) :
    decodeStrs (xs.map JValue.str) = some xs := by
  induction xs with
  | nil => rfl
  | cons h t ih => simp [decodeStrs, ih]

theorem jToStrList_enc (xs : List String) : jToStrList (jStrList xs) = some xs := by
  simp [jToStrList, jStrList, decodeStrs_map]

theorem decodePairs_enc (f : JValue → Option α) (g : α → JValue)
    (h : ∀ a, f (g a) = some a) (l : List (String × α)) :
    decodePairs f (l.map (fun p => (p.1, g p.2))) = some l := by
  induction l with
  | nil => rfl
  | cons p t ih => simp [decodePairs, h, ih]

theorem flagFromJ_enc (v : FlagVal) : flagFromJ (flagToJ v) = some v := by
  cases v <;> rfl

theorem jIntOnly_enc (n : Int) : jIntOnly (JValue.int n) = some n := rfl

theorem jStrOnly_enc (s : String) : jStrOnly (JValue.str s) = some s := rfl

theorem jOptStrD_enc (o : Option String) : jOptStrD (jOptStr o) = some o := by
  cases o <;> rfl

theorem locationFromJ_enc (l : Location) :
    locationFromJ (locationToJ l) = some l := by
  simp [locationToJ, locationFromJ, jToStrList_enc]

theorem npcFromJ_enc (n : NPC) : npcFromJ (npcToJ n) = some n := by
  simp [npcToJ, npcFromJ, jToStrList_enc,
    decodePairs_enc jIntOnly JValue.int jIntOnly_enc]

theorem monsterFromJ_enc (m : Monster) : monsterFromJ (monsterToJ m) = some m := rfl

theorem equipmentFromJ_enc (e : Equipment) :
    equipmentFromJ (equipmentToJ e) = some e := by
  simp [equipmentToJ, equipmentFromJ, dictGet, jOptStrD_enc]

set_option maxHeartbeats 2000000 in
theorem playerFromJ_enc (p : Player) : playerFromJ (playerToJ p) = some p := by
  obtain ⟨loc, inv, qs, g, h, mh, prev, ex, ach, eq⟩ := p
  simp only [playerToJ, playerFromJ, jToStrList_enc, equipmentFromJ_enc,
    decodePairs_enc jStrOnly JValue.str jStrOnly_enc, Option.bind_some,
    Option.some_bind]
  rfl

/-- C6: save→load round-trip.  `save_game` writes `world_to_dict(w)` with
`json.dump` and `load_game` reads it back with `json.load` — exact on the
null/bool/int/str/array/object shapes involved — and applies
`dict_to_world`.  The composition returns the original World, so
Player.inventory, gold, hp, the quest-state mapping, and every NPC's
relationship_points are preserved exactly. -/
theorem c6_save_load_roundtrip (w : World) (t : String) :
    dictToWorld (worldToDict w t) = some w := by
  rcases w with ⟨p, locs, ns, fl, mon⟩
  cases mon with
  | none =>
    simp [worldToDict, dictToWorld, dictGet, playerFromJ_enc,
      decodePairs_enc locationFromJ locationToJ locationFromJ_enc,
      decodePairs_enc npcFromJ npcToJ npcFromJ_enc,
      decodePairs_enc flagFromJ flagToJ flagFromJ_enc]
  | some m =>
    simp [worldToDict, dictToWorld, dictGet, playerFromJ_enc, monsterFromJ_enc,
      decodePairs_enc locationFromJ locationToJ locationFromJ_enc,
      decodePairs_enc npcFromJ npcToJ npcFromJ_enc,
      decodePairs_enc flagFromJ flagToJ flagFromJ_enc]
    rfl

theorem find?_setMap_self (d : List (String × α)) (k : String) (v : α)
    (h : (d.find? (fun p => p.1 == k)).isSome = true) :
    (d.map (fun p => if p.1 == k then (k, v) else p)).find?
      (fun p => p.1 == k) = some (k, v) := by
  induction d with
  | nil => simp [List.find?] at h
  | cons p t ih =>
    by_cases hp : p.1 = k
    · have hb : (p.1 == k) = true := beq_iff_eq.mpr hp
      simp only [List.map_cons, hb, if_true, List.find?_cons, beq_self_eq_true]
    · have hb : (p.1 == k) = false := beq_eq_false_iff_ne.mpr hp
      rw [List.find?_cons] at h
      simp only [hb] at h
      simp only [List.map_cons, hb, Bool.false_eq_true, if_false, List.find?_cons]
      exact ih h

theorem find?_setMap_ne (d : List (String × α)) (k k2 : String) (v : α)
    (h : k2 ≠ k) :
    (d.map (fun p => if p.1 == k then (k, v) else p)).find?
      (fun p => p.1 == k2) = d.find? (fun p => p.1 == k2) := by
  have hkk : (k == k2) = false := beq_eq_false_iff_ne.mpr (fun he => h he.symm)
  induction d with
  | nil => simp
  | cons p t ih =>
    by_cases hp : p.1 = k
    · have hb : (p.1 == k) = true := beq_iff_eq.mpr hp
      have h2 : (p.1 == k2) = false := by rw [hp]; exact hkk
      simp only [List.map_cons, hb, if_true, List.find?_cons, hkk, h2]
      exact ih
    · have hb : (p.1 == k) = false := beq_eq_false_iff_ne.mpr hp
      simp only [List.map_cons, hb, Bool.false_eq_true, if_false, List.find?_cons]
      by_cases hq : p.1 = k2
      · simp only [beq_iff_eq.mpr hq]
      · simp only [beq_eq_false_iff_ne.mpr hq]
        exact ih

theorem dictGet_dictSet (d : List (String × α)) (k k2 : String) (v : α) :
    dictGet (dictSet d k v) k2 = if k2 == k then some v else dictGet d k2 := by
  unfold dictSet
  by_cases hin : (d.find? (fun p => p.1 == k)).isSome = true
  · simp only [hin, if_true]
    by_cases h : k2 = k
    · subst h
      unfold dictGet
      rw [find?_setMap_self d k2 v hin]
      simp
    · unfold dictGet
      rw [find?_setMap_ne d k k2 v h]
      simp [beq_eq_false_iff_ne.mpr h]
  · simp only [Bool.not_eq_true] at hin
    simp only [hin, Bool.false_eq_true, if_false]
    have hnone : d.find? (fun p => p.1 == k) = none := by
      cases hf : d.find? (fun p => p.1 == k) with
      | none => rfl
      | some q => rw [hf] at hin; simp at hin
    by_cases h : k2 = k
    · subst h
      unfold dictGet
      rw [List.find?_append, hnone]
      simp [List.find?_cons]
    · have hb : (k2 == k) = false := beq_eq_false_iff_ne.mpr h
      have hb2 : (k == k2) = false := beq_eq_false_iff_ne.mpr (fun he => h he.symm)
      unfold dictGet
      rw [List.find?_append]
      simp only [List.find?_cons, List.find?_nil, hb2, hb, Bool.false_eq_true,
        if_false, Option.or_none]

theorem dictGet_set_self (d : List (String × α)) (k : String) (v : α) :
    dictGet (dictSet d k v) k = some v := by
  simp [dictGet_dictSet]

theorem dictGet_set_ne (d : List (String × α)) (k k2 : String) (v : α)
    (h : k2 ≠ k) : dictGet (dictSet d k v) k2 = dictGet d k2 := by
  simp [dictGet_dictSet, beq_eq_false_iff_ne.mpr h]

theorem dictGet_del_self (d : List (String × α)) (k : String) :
    dictGet (dictDel d k) k = none := by
  induction d with
  | nil => rfl
  | cons p t ih =>
    by_cases hp : p.1 = k
    · have hb : (p.1 != k) = false := by simp [bne, beq_iff_eq.mpr hp]
      simpa [dictDel, List.filter_cons, hb] using ih
    · have hb : (p.1 != k) = true := by simp [bne, beq_eq_false_iff_ne.mpr hp]
      have hq : (p.1 == k) = false := beq_eq_false_iff_ne.mpr hp
      unfold dictDel at ih ⊢
      unfold dictGet at ih ⊢
      simp only [List.filter_cons, hb, if_true, List.find?_cons, hq]
      exact ih

theorem dictGet_del_ne (d : List (String × α)) (k k2 : String)
    (h : k2 ≠ k) : dictGet (dictDel d k) k2 = dictGet d k2 := by
  induction d with
  | nil => rfl
  | cons p t ih =>
    by_cases hp : p.1 = k
    · have hb : (p.1 != k) = false := by simp [bne, beq_iff_eq.mpr hp]
      have h2 : (p.1 == k2) = false := beq_eq_false_iff_ne.mpr (by
        intro he; exact h (by rw [← he, hp]))
      unfold dictDel at ih ⊢
      unfold dictGet at ih ⊢
      simp only [List.filter_cons, hb, Bool.false_eq_true, if_false,
        List.find?_cons, h2]
      exact ih
    · have hb : (p.1 != k) = true := by simp [bne, beq_eq_false_iff_ne.mpr hp]
      unfold dictDel at ih ⊢
      unfold dictGet at ih ⊢
      simp only [List.filter_cons, hb, if_true, List.find?_cons]
      by_cases hq : p.1 = k2
      · simp only [beq_iff_eq.mpr hq]
      · simp only [beq_eq_false_iff_ne.mpr hq]
        exact ih

/-- A canonical reachable in-combat state: from the initial world, walking
onto the forest path with an encounter roll of 10 (≤ 20) spawns the
Forest Wolf and sets `in_combat`. -/
def combatWorld : World :=
  ((movePlayer buildWorld "forest_path" 10).map Prod.fst).getD buildWorld

/-- `combatWorld` with the player worn down to 1 hp — reachable from
`combatWorld` by wolf retaliation rolls (for example 4, 4, 4, 4, 3 over
five rounds never lets the wolf die first). -/
def lowHpCombatWorld : World :=
  { combatWorld with player := { combatWorld.player with hp := 1 } }

/-- The world after `go blacksmith_shop` from the start. -/
def c8AfterMove : Option World :=
  (movePlayer buildWorld "blacksmith_shop" 50).map Prod.fst

/-- ... then `buy rusty sword` (priced 10, starting gold 15). -/
def c8AfterBuy : Option World :=
  c8AfterMove.bind (fun w => (buyItem w "blacksmith" "rusty_sword").map Prod.fst)

/-- C8: from the initial world (gold 15), buying the 10-gold rusty sword
leaves gold 5 and appends the key to the inventory; a second 10-gold buy
then fails with the insufficient-gold message and changes nothing (the
whole World is unchanged, so gold stays 5). -/
theorem c8_buy_scenario :
    buildWorld.player.gold = 15 ∧
    c8AfterBuy.map (fun w => (w.player.gold, w.player.inventory)) =
      some (5, ["rusty_sword"]) ∧
    (c8AfterBuy.bind (fun w => buyItem w "blacksmith" "rusty_sword")).map
      (fun p => (p.1.player.gold, p.1.player.inventory, p.2)) =
      some (5, ["rusty_sword"], "You don't have enough gold (need 10).") ∧
    c8AfterBuy.bind (fun w => (buyItem w "blacksmith" "rusty_sword").map Prod.fst) =
      c8AfterBuy :=
  ⟨rfl, rfl, rfl, rfl⟩

/-- C4: the dispatcher raises NameError instead of answering.  The parser
branches for `ask <npc> about <topic>` and for NPC-name-first utterances
call `talk_to`, which the source never defines (its one-time body is dead
code inside `npc_reply_claude`), and in `repl` the `parse_and_exec` call
sits outside the `try` block, so the player is thrown out of the
session.  Both failing inputs below are evaluated on the initial world. -/
theorem c4_dispatcher_raises_nameerror :
    parseAndExec buildWorld "ask elder about curse" {} =
      .pyError buildWorld "NameError: name 'talk_to' is not defined" ∧
    parseAndExec buildWorld "wanderer hello" {} =
      .pyError buildWorld "NameError: name 'talk_to' is not defined" :=
  ⟨rfl, rfl⟩

/-- C10 counterexample: in combat, the empty input line is answered with
the generic "Say or do something." prompt, not the fixed combat-rejection
message the claim requires for every non-accepted input. -/
theorem c10_empty_line_not_fixed_message :
    inCombat combatWorld = true ∧
    parseAndExec combatWorld "" {} = .ok combatWorld "Say or do something." ∧
    "Say or do something." ≠ "You're in combat! Try: attack, defend, or flee." :=
  ⟨rfl, rfl, by decide⟩

/-- C1 counterexample: a lethal blow is stored unclamped.  At 1 hp, a
player-damage roll of 1 (inside the roll range [1, 3] for base attack 2)
leaves the wolf alive, and a wolf roll of 4 (inside [2, 4]) drives the
stored Player.hp to −3, outside [0, max_hp]; game_over is set. -/
theorem c1_player_hp_leaves_interval :
    lowHpCombatWorld.player.hp = 1 ∧
    lowHpCombatWorld.player.max_hp = 20 ∧
    lowHpCombatWorld.monster = some { key := "forest_wolf", name := "Forest Wolf",
                                      hp := 12, attack_min := 2, attack_max := 4 } ∧
    (doAttack lowHpCombatWorld 1 4).map (fun p => (p.1.player.hp, gameOverFlag p.1)) =
      some (-3, true) :=
  ⟨rfl, rfl, rfl, rfl⟩

/-- C2 counterexample: the player-defeat transition clears `in_combat`
but does not clear the bound Monster, so afterwards `in_combat` is false
while the Monster is non-null — the claimed equivalence fails. -/
theorem c2_defeat_keeps_monster :
    (doAttack lowHpCombatWorld 1 4).map (fun p => (inCombat p.1, p.1.monster)) =
      some (false, some { key := "forest_wolf", name := "Forest Wolf", hp := 11,
                          attack_min := 2, attack_max := 4 }) :=
  rfl

/-- C3 counterexample: `do_defend` floors retaliation at 0, not 1.  A
wolf roll of 2 (inside [2, 4]) against defending defense 0 + 2 deals 0
damage: the hit is fully negated, contradicting the claimed minimum of 1
on the defend action. -/
theorem c3_defend_fully_negates :
    combatWorld.monster = some { key := "forest_wolf", name := "Forest Wolf",
                                 hp := 12, attack_min := 2, attack_max := 4 } ∧
    combatWorld.player.hp = 20 ∧
    (doDefend combatWorld 2).map (fun p => p.1.player.hp) = some 20 :=
  ⟨rfl, rfl, rfl⟩

/-- ... equip the bought sword, then drop it. -/
def c9AfterDrop : Option World :=
  (c8AfterBuy.bind (fun w => (equipItem w "rusty_sword").map Prod.fst)).bind
    (fun w => (dropItem w "rusty_sword").map Prod.fst)

/-- C9 counterexample: `drop_item` never checks the equipment slots, so
dropping the equipped rusty sword leaves the weapon slot referencing an
item key that is no longer in the inventory. -/
theorem c9_drop_breaks_slot_invariant :
    c9AfterDrop.map (fun w =>
      (w.player.equipment.weapon, w.player.inventory.contains "rusty_sword")) =
      some (some "rusty_sword", false) :=
  rfl

/-- C3 (amended): for every monster-damage roll inside the inclusive
range `[attack_min, attack_max]` — the distribution
`random.randint(attack_min, attack_max)` draws from — the retaliation on
attack and on failed flee is the roll minus the player's total defense
floored at 1, while on defend the `+2` bonus applies and the floor is 0,
so defend can fully negate the hit (the original claim's "never fully
negated, including on defend" fails; see the counterexample). -/
theorem c3_monster_damage_model (w : World) (m : Monster) (st : PStats)
    (pdmg mroll : Int)
    (hc : inCombat w = true)
    (hm : w.monster = some m)
    (hst : getPlayerStats w = some st)
    (hlo : m.attack_min ≤ mroll) (hhi : mroll ≤ m.attack_max)
    (hsurv : 0 < m.hp - pdmg) :
    ((doAttack w pdmg mroll).map (fun p => p.1.player.hp) =
      some (w.player.hp - max 1 (mroll - st.defense))) ∧
    ((doDefend w mroll).map (fun p => p.1.player.hp) =
      some (w.player.hp - max 0 (mroll - (st.defense + 2)))) ∧
    ((doFlee w false mroll).map (fun p => p.1.player.hp) =
      some (w.player.hp - max 1 (mroll - st.defense))) := by
  have hnc : (!(inCombat w)) = false := by simp [hc]
  have hns : ¬ (m.hp - pdmg ≤ 0) := by omega
  refine ⟨?_, ?_, ?_⟩
  · simp only [doAttack, hnc, Bool.false_eq_true, if_false, hst, hm,
      bind, Option.bind, hns, if_false]
    split <;> simp
  · simp only [doDefend, hnc, Bool.false_eq_true, if_false, hst, hm,
      bind, Option.bind]
    split <;> simp
  · simp only [doFlee, hnc, Bool.false_eq_true, if_false, hst, hm,
      bind, Option.bind]
    split <;> simp

/-- Witness for `c3_monster_damage_model` at the wolf fight: player roll
1 and wolf roll 3. -/
theorem c3_monster_damage_model_witness :
    ((doAttack combatWorld 1 3).map (fun p => p.1.player.hp) =
      some (combatWorld.player.hp - max 1 (3 - (0 : Int)))) ∧
    ((doDefend combatWorld 3).map (fun p => p.1.player.hp) =
      some (combatWorld.player.hp - max 0 (3 - ((0 : Int) + 2)))) ∧
    ((doFlee combatWorld false 3).map (fun p => p.1.player.hp) =
      some (combatWorld.player.hp - max 1 (3 - (0 : Int)))) :=
  c3_monster_damage_model combatWorld
    { key := "forest_wolf", name := "Forest Wolf", hp := 12,
      attack_min := 2, attack_max := 4 }
    { attack := 2, defense := 0, max_hp := 20, hp_regen := 0 }
    1 3 rfl rfl rfl (by decide) (by decide) (by decide)

/-- C10 (amended): while `in_combat` is set, the dispatcher accepts only
attack, defend, flee, look/l and inventory/inv/i/stats; every other
nonempty input line is rejected with the fixed combat message and leaves
the World unchanged.  (An empty or all-whitespace line instead gets the
generic "Say or do something." prompt — see the counterexample.) -/
theorem c10_combat_command_gate (w : World) (raw : String) (rng : Rng)
    (hc : inCombat w = true)
    (hne : pyStrip raw ≠ "")
    (hnot : ¬ (pyLower (pyStrip raw) ∈
      ["attack", "defend", "flee", "look", "l", "inventory", "inv", "i", "stats"])) :
    parseAndExec w raw rng =
      .ok w "You're in combat! Try: attack, defend, or flee." := by
  simp only [List.mem_cons, List.not_mem_nil, or_false, not_or] at hnot
  obtain ⟨h1, h2, h3, h4, h5, h6, h7, h8, h9⟩ := hnot
  simp only [parseAndExec, beq_eq_false_iff_ne.mpr hne, Bool.false_eq_true,
    if_false, hc, if_true, beq_eq_false_iff_ne.mpr h1,
    beq_eq_false_iff_ne.mpr h2, beq_eq_false_iff_ne.mpr h3,
    beq_eq_false_iff_ne.mpr h4, beq_eq_false_iff_ne.mpr h5,
    beq_eq_false_iff_ne.mpr h6, beq_eq_false_iff_ne.mpr h7,
    beq_eq_false_iff_ne.mpr h8, beq_eq_false_iff_ne.mpr h9,
    Bool.or_self, or_self, if_false]

/-- Witness for `c10_combat_command_gate`: the input `dance` during the
wolf fight. -/
theorem c10_combat_command_gate_witness :
    parseAndExec combatWorld "dance" {} =
      .ok combatWorld "You're in combat! Try: attack, defend, or flee." :=
  c10_combat_command_gate combatWorld "dance" {} rfl (by decide) (by decide)

/-- C9 (amended): `equip_item` maintains the discipline — it never
changes the inventory and only ever sets a slot to an equipable catalog
item that is currently in the inventory — but the invariant is not
preserved by every inventory-removing operation: `drop_item` removes the
item without touching the slots, leaving a dangling reference (see the
counterexample). -/
theorem c9_equip_slot_discipline (w : World) (itemKey : String) :
    ∀ w2 msg, equipItem w itemKey = some (w2, msg) →
      w2.player.inventory = w.player.inventory ∧
      (w2.player.equipment.weapon ≠ w.player.equipment.weapon →
        w2.player.equipment.weapon = some itemKey ∧
        w.player.inventory.contains itemKey = true ∧
        ∃ item, dictGet ITEMS itemKey = some item ∧ item.equipable = true ∧
          item.category = "weapon") ∧
      (w2.player.equipment.armor ≠ w.player.equipment.armor →
        w2.player.equipment.armor = some itemKey ∧
        w.player.inventory.contains itemKey = true ∧
        ∃ item, dictGet ITEMS itemKey = some item ∧ item.equipable = true ∧
          item.category = "armor") ∧
      (w2.player.equipment.accessory ≠ w.player.equipment.accessory →
        w2.player.equipment.accessory = some itemKey ∧
        w.player.inventory.contains itemKey = true ∧
        ∃ item, dictGet ITEMS itemKey = some item ∧ item.equipable = true ∧
          item.category = "accessory") := by
  intro w2 msg h
  unfold equipItem at h
  by_cases hinv : w.player.inventory.contains itemKey = true
  · simp only [hinv, Bool.not_true, Bool.false_eq_true, if_false] at h
    cases hit : dictGet ITEMS itemKey with
    | none =>
      rw [hit] at h
      simp only [Option.some.injEq, Prod.mk.injEq] at h
      obtain ⟨hw, _⟩ := h
      subst hw
      exact ⟨rfl, fun hne => absurd rfl hne, fun hne => absurd rfl hne,
        fun hne => absurd rfl hne⟩
    | some item =>
      rw [hit] at h
      by_cases heq : item.equipable = true
      · simp only [heq, Bool.not_true, Bool.false_eq_true, if_false] at h
        by_cases hwc : item.category = "weapon"
        · simp only [beq_iff_eq.mpr hwc, if_true] at h
          cases hw : w.player.equipment.weapon with
          | some oldKey =>
            rw [hw] at h
            simp only [] at h
            cases hold : dictGet ITEMS oldKey with
            | none => simp [hold, bind, Option.bind] at h
            | some oldItem =>
              simp only [hold, bind, Option.bind, Option.some.injEq,
                Prod.mk.injEq] at h
              obtain ⟨hw2, _⟩ := h
              subst hw2
              refine ⟨rfl, fun _ => ⟨rfl, hinv, item, rfl, heq, hwc⟩,
                fun hne => absurd rfl hne, fun hne => absurd rfl hne⟩
          | none =>
            rw [hw] at h
            simp only [Option.some.injEq, Prod.mk.injEq] at h
            obtain ⟨hw2, _⟩ := h
            subst hw2
            refine ⟨rfl, fun _ => ⟨rfl, hinv, item, rfl, heq, hwc⟩,
              fun hne => absurd rfl hne, fun hne => absurd rfl hne⟩
        · have hwcb : (item.category == "weapon") = false :=
            beq_eq_false_iff_ne.mpr hwc
          simp only [hwcb, Bool.false_eq_true, if_false] at h
          by_cases hac : item.category = "armor"
          · simp only [beq_iff_eq.mpr hac, if_true] at h
            cases hw : w.player.equipment.armor with
            | some oldKey =>
              rw [hw] at h
              simp only [] at h
              cases hold : dictGet ITEMS oldKey with
              | none => simp [hold, bind, Option.bind] at h
              | some oldItem =>
                simp only [hold, bind, Option.bind, Option.some.injEq,
                  Prod.mk.injEq] at h
                obtain ⟨hw2, _⟩ := h
                subst hw2
                refine ⟨rfl, fun hne => absurd rfl hne,
                  fun _ => ⟨rfl, hinv, item, rfl, heq, hac⟩,
                  fun hne => absurd rfl hne⟩
            | none =>
              rw [hw] at h
              simp only [Option.some.injEq, Prod.mk.injEq] at h
              obtain ⟨hw2, _⟩ := h
              subst hw2
              refine ⟨rfl, fun hne => absurd rfl hne,
                fun _ => ⟨rfl, hinv, item, rfl, heq, hac⟩,
                fun hne => absurd rfl hne⟩
          · have hacb : (item.category == "armor") = false :=
              beq_eq_false_iff_ne.mpr hac
            simp only [hacb, Bool.false_eq_true, if_false] at h
            by_cases hcc : item.category = "accessory"
            · simp only [beq_iff_eq.mpr hcc, if_true] at h
              cases hw : w.player.equipment.accessory with
              | some oldKey =>
                rw [hw] at h
                simp only [] at h
                cases hold : dictGet ITEMS oldKey with
                | none => simp [hold, bind, Option.bind] at h
                | some oldItem =>
                  simp only [hold, bind, Option.bind, Option.some.injEq,
                    Prod.mk.injEq] at h
                  obtain ⟨hw2, _⟩ := h
                  subst hw2
                  refine ⟨rfl, fun hne => absurd rfl hne,
                    fun hne => absurd rfl hne,
                    fun _ => ⟨rfl, hinv, item, rfl, heq, hcc⟩⟩
              | none =>
                rw [hw] at h
                simp only [Option.some.injEq, Prod.mk.injEq] at h
                obtain ⟨hw2, _⟩ := h
                subst hw2
                refine ⟨rfl, fun hne => absurd rfl hne,
                  fun hne => absurd rfl hne,
                  fun _ => ⟨rfl, hinv, item, rfl, heq, hcc⟩⟩
            · have hccb : (item.category == "accessory") = false :=
                beq_eq_false_iff_ne.mpr hcc
              simp only [hccb, Bool.false_eq_true, if_false,
                Option.some.injEq, Prod.mk.injEq] at h
              obtain ⟨hw2, _⟩ := h
              subst hw2
              exact ⟨rfl, fun hne => absurd rfl hne, fun hne => absurd rfl hne,
                fun hne => absurd rfl hne⟩
      · simp only [Bool.not_eq_true] at heq
        simp only [heq, Bool.not_false, if_true, Option.some.injEq,
          Prod.mk.injEq] at h
        obtain ⟨hw2, _⟩ := h
        subst hw2
        exact ⟨rfl, fun hne => absurd rfl hne, fun hne => absurd rfl hne,
          fun hne => absurd rfl hne⟩
  · simp only [Bool.not_eq_true] at hinv
    simp only [hinv, Bool.not_false, if_true, Option.some.injEq,
      Prod.mk.injEq] at h
    obtain ⟨hw2, _⟩ := h
    subst hw2
    exact ⟨rfl, fun hne => absurd rfl hne, fun hne => absurd rfl hne,
      fun hne => absurd rfl hne⟩

/-- The world after buying and equipping the rusty sword. -/
def c9Equipped : World :=
  ((c8AfterBuy.bind (fun w => equipItem w "rusty_sword")).map Prod.fst).getD
    buildWorld

/-- Witness for `c9_equip_slot_discipline`: equipping the bought rusty
sword. -/
theorem c9_equip_slot_discipline_witness :
    c9Equipped.player.inventory = ["rusty_sword"] ∧
    c9Equipped.player.equipment.weapon = some "rusty_sword" := by
  have h := c9_equip_slot_discipline (c8AfterBuy.getD buildWorld) "rusty_sword"
    c9Equipped "You equip the Rusty Sword." rfl
  exact ⟨h.1.trans rfl, rfl⟩

/-- A fully reachable play prefix: walk to the mine (fighting off the
scripted Mine Rat with rolls inside the documented ranges), take the iron
ore — which itself completes `prove_worth` — and carry it back to the
blacksmith's shop. -/
def c7Chain : Option World :=
  ((((((((movePlayer buildWorld "forest_path" 50).map Prod.fst).bind
    (fun w => (movePlayer w "iron_mine" 50).map Prod.fst)).bind
    (fun w => (doAttack w 3 1).map Prod.fst)).bind
    (fun w => (doAttack w 3 1).map Prod.fst)).bind
    (fun w => (doAttack w 3 1).map Prod.fst)).bind
    (fun w => (takeItem w "iron_ore").map Prod.fst)).bind
    (fun w => (movePlayer w "forest_path" 50).map Prod.fst)).bind
    (fun w => (movePlayer w "village_square" 50).map Prod.fst) |>.bind
    (fun w => (movePlayer w "blacksmith_shop" 50).map Prod.fst)

/-- C7 counterexample: with `prove_worth` already "completed" (set by
taking the iron ore) the blacksmith's ore trigger still fires and grants
+8 gold and the broad sword — the trigger is guarded only by possession
of the ore, not by the quest's completed state. -/
theorem c7_ore_trigger_regrants :
    c7Chain.map (fun w => (dictGet w.player.quests "prove_worth", w.player.gold,
      w.player.inventory.contains "iron_ore")) =
      some (some "completed", 18, true) ∧
    (c7Chain.bind (fun w => handleQuestInteractions w "blacksmith" "forge it" "r")).map
      (fun p => (p.1.player.gold, p.1.player.inventory.contains "broad_sword",
        dictGet p.1.player.quests "prove_worth")) =
      some (26, true, some "completed") :=
  ⟨rfl, rfl⟩

/-- C7 (amended): the take-item triggers and the forge-key and heal-elder
dialogue triggers are guarded by quest state and idempotent — once their
quest is completed, re-invoking them grants nothing — while the
blacksmith ore→sword and wanderer trinket triggers are guarded only by
possession of the consumed item (see the counterexample), so in reachable
play each still fires at most once because the item is unique and
consumed. -/
theorem c7_quest_triggers_guarded (w : World) (text npcReply : String) :
    (dictGet w.player.quests "retrieve_scroll" = some "completed" →
      ∀ w2 msg, takeItem w "ancient_scroll" = some (w2, msg) →
        w2.player.gold = w.player.gold ∧ w2.player.quests = w.player.quests) ∧
    (dictGet w.player.quests "forge_key" = some "completed" →
      w.player.inventory.contains "iron_ore" = false →
      ∀ w2 r, handleQuestInteractions w "blacksmith" text npcReply = some (w2, r) →
        w2.player.gold = w.player.gold ∧
        w2.player.inventory = w.player.inventory) ∧
    (dictGet w.player.quests "heal_elder" = some "completed" →
      ∀ w2 r, handleQuestInteractions w "elder" text npcReply = some (w2, r) →
        w2.player.gold = w.player.gold ∧ w2.player.max_hp = w.player.max_hp ∧
        w2.player.inventory = w.player.inventory) := by
  refine ⟨?_, ?_, ?_⟩
  · intro hq w2 msg h
    unfold takeItem at h
    by_cases hcb : inCombat w = true
    · simp only [hcb, if_true, Option.some.injEq, Prod.mk.injEq] at h
      obtain ⟨hw2, _⟩ := h; subst hw2; exact ⟨rfl, rfl⟩
    · simp only [Bool.not_eq_true] at hcb
      simp only [hcb, Bool.false_eq_true, if_false] at h
      cases hl : dictGet w.locations w.player.location with
      | none => simp [hl, bind, Option.bind] at h
      | some loc =>
        simp only [hl, bind, Option.bind] at h
        by_cases hit : loc.items.contains "ancient_scroll" = true
        · simp only [hit, Bool.not_true, Bool.false_eq_true, if_false] at h
          simp only [show (("ancient_scroll" : String) == "glimmering_gem") = false
              from rfl,
            show (("ancient_scroll" : String) == "iron_ore") = false from rfl,
            show (("ancient_scroll" : String) == "ancient_scroll") = true from rfl,
            Bool.false_and, Bool.true_and, Bool.false_eq_true, if_false] at h
          simp only [hq] at h
          simp only [show ((some "completed" : Option String) ==
              some "completed") = true from rfl, Bool.not_true,
            Bool.false_eq_true, if_false, Option.some.injEq,
            Prod.mk.injEq] at h
          obtain ⟨hw2, _⟩ := h
          subst hw2
          exact ⟨rfl, rfl⟩
        · simp only [Bool.not_eq_true] at hit
          simp only [hit, Bool.not_false, if_true, Option.some.injEq,
            Prod.mk.injEq] at h
          obtain ⟨hw2, _⟩ := h; subst hw2; exact ⟨rfl, rfl⟩
  · intro hq hore w2 r h
    unfold handleQuestInteractions at h
    cases hn : dictGet w.npcs "blacksmith" with
    | none => simp [hn, bind, Option.bind] at h
    | some npc =>
      simp only [hn, bind, Option.bind, beq_self_eq_true, if_true] at h
      simp only [hore, Bool.false_and, Bool.false_eq_true, if_false] at h
      simp only [hq] at h
      simp only [show ((some "completed" : Option String) ==
          some "not_started") = false from rfl, Bool.false_and,
        Bool.and_false, Bool.false_eq_true, if_false] at h
      split at h
      · simp only [Option.some.injEq, Prod.mk.injEq] at h
        obtain ⟨hw2, _⟩ := h
        subst hw2
        exact ⟨rfl, rfl⟩
      · split at h
        · simp only [Option.some.injEq, Prod.mk.injEq] at h
          obtain ⟨hw2, _⟩ := h
          subst hw2
          exact ⟨rfl, rfl⟩
        · simp only [Option.some.injEq, Prod.mk.injEq] at h
          obtain ⟨hw2, _⟩ := h
          subst hw2
          exact ⟨rfl, rfl⟩
  · intro hq w2 r h
    unfold handleQuestInteractions at h
    cases hn : dictGet w.npcs "elder" with
    | none => simp [hn, bind, Option.bind] at h
    | some npc =>
      simp only [hn, bind, Option.bind,
        show (("elder" : String) == "blacksmith") = false from rfl,
        show (("elder" : String) == "healer") = false from rfl,
        show (("elder" : String) == "elder") = true from rfl,
        Bool.false_eq_true, if_false, if_true] at h
      simp only [hq] at h
      simp only [show ((some "completed" : Option String) ==
          some "not_started") = false from rfl,
        show ((some "completed" : Option String) ==
          some "started") = false from rfl,
        Bool.and_false, Bool.false_and, Bool.false_eq_true, if_false,
        Option.some.injEq, Prod.mk.injEq] at h
      obtain ⟨hw2, _⟩ := h
      subst hw2
      exact ⟨rfl, rfl, rfl⟩

/-- A state with the three guarded quests already completed. -/
def c7GuardWorld : World :=
  let qs := dictSet (dictSet (dictSet buildWorld.player.quests
    "retrieve_scroll" "completed") "forge_key" "completed")
    "heal_elder" "completed"
  { buildWorld with player := { buildWorld.player with quests := qs } }

/-- Witness for `c7_quest_triggers_guarded` at `c7GuardWorld`. -/
theorem c7_quest_triggers_guarded_witness :
    (c7GuardWorld.player.gold = c7GuardWorld.player.gold ∧
      c7GuardWorld.player.quests = c7GuardWorld.player.quests) ∧
    (c7GuardWorld.player.gold = c7GuardWorld.player.gold ∧
      c7GuardWorld.player.inventory = c7GuardWorld.player.inventory) := by
  have e1 : dictGet c7GuardWorld.player.quests "retrieve_scroll" =
      some "completed" := rfl
  have e2 : takeItem c7GuardWorld "ancient_scroll" =
      some (c7GuardWorld, "You don't see a 'ancient_scroll' here.") := rfl
  have e3 : dictGet c7GuardWorld.player.quests "forge_key" =
      some "completed" := rfl
  have e4 : c7GuardWorld.player.inventory.contains "iron_ore" = false := rfl
  have e5 : handleQuestInteractions c7GuardWorld "blacksmith" "hello there" "r" =
      some (c7GuardWorld, none) := rfl
  have h := c7_quest_triggers_guarded c7GuardWorld "hello there" "r"
  exact ⟨h.1 e1 c7GuardWorld _ e2, h.2.1 e3 e4 c7GuardWorld none e5⟩

theorem gameOver_after_death (f : List (String × FlagVal)) :
    truthy (dictGet (dictSet (dictSet f "in_combat" (.bool false))
      "game_over" (.bool true)) "game_over") = true := by
  rw [dictGet_set_self]; rfl

theorem inCombat_after_death (f : List (String × FlagVal)) :
    truthy (dictGet (dictSet (dictSet f "in_combat" (.bool false))
      "game_over" (.bool true)) "in_combat") = false := by
  rw [dictGet_set_ne _ _ _ _ (by decide), dictGet_set_self]; rfl

/-- C1 (amended): every attack/defend/failed-flee step only lowers the
stored hp values, Player.hp reaching ≤ 0 sets `game_over` and clears
`in_combat`, the stored Monster.hp after a hit is the unclamped
difference, and the combat message renders both hp values clamped to
≥ 0.  The stored Player.hp itself is not kept inside [0, max] (see the
counterexample). -/
theorem c1_combat_hp_resolution (w : World) (m : Monster) (st : PStats)
    (pdmg mroll : Int)
    (hc : inCombat w = true) (hm : w.monster = some m)
    (hst : getPlayerStats w = some st)
    (hpd : 0 ≤ pdmg) (hphp : 0 < w.player.hp) :
    (∀ w2 msg, doAttack w pdmg mroll = some (w2, msg) →
      w2.player.hp ≤ w.player.hp ∧
      (w2.player.hp ≤ 0 → gameOverFlag w2 = true ∧ inCombat w2 = false) ∧
      (∀ m2, w2.monster = some m2 → m2.hp = m.hp - pdmg ∧ m2.hp ≤ m.hp)) ∧
    (∀ w2 msg, doDefend w mroll = some (w2, msg) →
      w2.player.hp ≤ w.player.hp ∧
      (w2.player.hp ≤ 0 → gameOverFlag w2 = true ∧ inCombat w2 = false)) ∧
    (∀ w2 msg, doFlee w false mroll = some (w2, msg) →
      w2.player.hp ≤ w.player.hp ∧
      (w2.player.hp ≤ 0 → gameOverFlag w2 = true ∧ inCombat w2 = false)) ∧
    (0 < m.hp - pdmg →
      ∀ w2 msg, doAttack w pdmg mroll = some (w2, msg) →
      ∃ mdmg hp2 foeShown hpShown,
        mdmg = max 1 (mroll - st.defense) ∧
        hp2 = w.player.hp - mdmg ∧
        foeShown = max (m.hp - pdmg) 0 ∧
        hpShown = max hp2 0 ∧
        0 ≤ foeShown ∧ 0 ≤ hpShown ∧
        msg = joinWith "\n"
          ([s!"You strike the {m.name} for {pdmg} damage. (Foe HP {foeShown})",
            s!"The {m.name} hits you for {mdmg}. (Your HP {hpShown})"] ++
           (if hp2 ≤ 0 then ["You fall to the ground. Darkness closes in."]
            else []))) := by
  have hnc : (!(inCombat w)) = false := by simp [hc]
  refine ⟨?_, ?_, ?_, ?_⟩
  · intro w2 msg h
    simp only [doAttack, hnc, Bool.false_eq_true, if_false, hst, hm, bind,
      Option.bind] at h
    by_cases hv : m.hp - pdmg ≤ 0
    · have hfin : ∀ w2q : World, w2q.player.hp = w.player.hp →
          w2q.monster = none →
          w2q.player.hp ≤ w.player.hp ∧
          (w2q.player.hp ≤ 0 → gameOverFlag w2q = true ∧ inCombat w2q = false) ∧
          (∀ m2, w2q.monster = some m2 → m2.hp = m.hp - pdmg ∧ m2.hp ≤ m.hp) := by
        intro w2q hhp hmo
        exact ⟨le_of_eq hhp, fun hle => absurd hle (by omega),
          fun m2 hm2 => by rw [hmo] at hm2; exact absurd hm2 (by simp)⟩
      rw [if_pos hv] at h
      repeat' split at h
      all_goals first
        | (simp only [Option.some.injEq, Prod.mk.injEq] at h
           obtain ⟨hw2, -⟩ := h
           subst hw2
           exact hfin _ rfl rfl)
        | simp at h
    · rw [if_neg hv] at h
      split at h <;>
        (simp only [Option.some.injEq, Prod.mk.injEq] at h;
         obtain ⟨hw2, _⟩ := h; subst hw2)
      · refine ⟨by simp <;> omega, fun _ => ?_, fun m2 hm2 => ?_⟩
        · exact ⟨gameOver_after_death _, inCombat_after_death _⟩
        · simp only [Option.some.injEq] at hm2
          subst hm2
          exact ⟨rfl, by simp <;> omega⟩
      · refine ⟨by simp <;> omega, fun hle => ?_, fun m2 hm2 => ?_⟩
        · simp at hle <;> omega
        · simp only [Option.some.injEq] at hm2
          subst hm2
          exact ⟨rfl, by simp <;> omega⟩
  · intro w2 msg h
    simp only [doDefend, hnc, Bool.false_eq_true, if_false, hst, hm, bind,
      Option.bind] at h
    split at h <;>
      (simp only [Option.some.injEq, Prod.mk.injEq] at h;
       obtain ⟨hw2, _⟩ := h; subst hw2)
    · exact ⟨by simp <;> omega,
        fun _ => ⟨gameOver_after_death _, inCombat_after_death _⟩⟩
    · refine ⟨by simp <;> omega, fun hle => ?_⟩
      simp at hle <;> omega
  · intro w2 msg h
    simp only [doFlee, hnc, Bool.false_eq_true, if_false, hst, hm, bind,
      Option.bind] at h
    split at h <;>
      (simp only [Option.some.injEq, Prod.mk.injEq] at h;
       obtain ⟨hw2, _⟩ := h; subst hw2)
    · exact ⟨by simp <;> omega,
        fun _ => ⟨gameOver_after_death _, inCombat_after_death _⟩⟩
    · refine ⟨by simp <;> omega, fun hle => ?_⟩
      simp at hle <;> omega
  · intro hsurv w2 msg h
    simp only [doAttack, hnc, Bool.false_eq_true, if_false, hst, hm, bind,
      Option.bind] at h
    rw [if_neg (by omega : ¬ (m.hp - pdmg ≤ 0))] at h
    refine ⟨max 1 (mroll - st.defense), w.player.hp - max 1 (mroll - st.defense),
      max (m.hp - pdmg) 0, max (w.player.hp - max 1 (mroll - st.defense)) 0,
      rfl, rfl, rfl, rfl, le_max_right _ _, le_max_right _ _, ?_⟩
    split at h
    · simp only [Option.some.injEq, Prod.mk.injEq] at h
      rw [if_pos (by assumption)]
      exact h.2.symm
    · simp only [Option.some.injEq, Prod.mk.injEq] at h
      rw [if_neg (by assumption)]
      exact h.2.symm

/-- Witness for `c1_combat_hp_resolution` at the wolf fight with rolls
1 and 3. -/
theorem c1_combat_hp_resolution_witness :
    inCombat combatWorld = true ∧ 0 < combatWorld.player.hp ∧
    (((doAttack combatWorld 1 3).map Prod.fst).getD buildWorld).player.hp ≤
      combatWorld.player.hp :=
  ⟨rfl, by decide,
    ((c1_combat_hp_resolution combatWorld
      { key := "forest_wolf", name := "Forest Wolf", hp := 12,
        attack_min := 2, attack_max := 4 }
      { attack := 2, defense := 0, max_hp := 20, hp_regen := 0 }
      1 3 rfl rfl rfl (by decide) (by decide)).1
      (((doAttack combatWorld 1 3).map Prod.fst).getD buildWorld)
      (((doAttack combatWorld 1 3).map Prod.snd).getD "") rfl).1⟩

theorem describeLocation_frame (w : World)
    (hic : inCombat w = false)
    (hbk : truthy (w.flag "forest_path_boss_key") = false)
    (hkey : ∀ loc, dictGet w.locations w.player.location = some loc →
      loc.key = "forest_path") :
    ∀ p, describeLocation w = some p →
      p.1.monster = w.monster ∧ p.1.flags = w.flags ∧ p.1.player = w.player := by
  intro p h
  simp only [describeLocation, bind, Option.bind] at h
  cases hg : dictGet w.locations w.player.location with
  | none => rw [hg] at h; exact absurd h (by simp)
  | some loc =>
    rw [hg] at h
    simp only [] at h
    have hk := hkey loc hg
    rw [hk] at h
    rw [(show ("forest_path" ++ "_boss_key" : String) = "forest_path_boss_key" from rfl),
        (show ("forest_path" ++ "_boss_hp" : String) = "forest_path_boss_hp" from rfl)] at h
    rw [hbk] at h
    simp only [Bool.false_and, Bool.and_false, Bool.false_eq_true, if_false] at h
    by_cases hv : loc.visited
    · rw [if_neg (by simp [hv])] at h
      rw [Option.map_eq_some'] at h
      obtain ⟨q, -, hpe⟩ := h
      rw [← hpe]
      exact ⟨rfl, rfl, rfl⟩
    · rw [if_pos (by simp [hv])] at h
      simp only [show ("forest_path" == "hidden_cave") = false from rfl,
        show ("forest_path" == "deep_ruins") = false from rfl,
        show ("forest_path" == "iron_mine") = false from rfl,
        Bool.false_and, Bool.false_eq_true, if_false] at h
      rw [Option.map_eq_some'] at h
      obtain ⟨q, -, hpe⟩ := h
      rw [← hpe]
      exact ⟨rfl, rfl, rfl⟩

/-- C2 (amended): victory and a successful flee both clear the Monster and
the `in_combat` flag, re-establishing the in_combat ⇔ monster-non-null
equivalence, but the player-defeat transition only clears `in_combat`
(setting `game_over`) and leaves the Monster bound, so the equivalence is
not re-established by every combat-ending transition. -/
theorem c2_combat_monster_binding (w : World) (m : Monster) (st : PStats)
    (pdmg mroll : Int)
    (hc : inCombat w = true) (hm : w.monster = some m)
    (hst : getPlayerStats w = some st) :
    (m.hp - pdmg ≤ 0 →
      ∀ w2 msg, doAttack w pdmg mroll = some (w2, msg) →
        w2.monster = none ∧ inCombat w2 = false) ∧
    ((∀ loc, dictGet w.locations "forest_path" = some loc →
        loc.key = "forest_path") →
     truthy (w.flag "forest_path_boss_key") = false →
     ("forest_path_boss_key" : String) ≠ w.player.location ++ "_boss_key" →
     ("forest_path_boss_key" : String) ≠ w.player.location ++ "_boss_hp" →
     ("in_combat" : String) ≠ w.player.location ++ "_boss_key" →
     ("in_combat" : String) ≠ w.player.location ++ "_boss_hp" →
      ∀ w2 msg, doFlee w true mroll = some (w2, msg) →
        w2.monster = none ∧ inCombat w2 = false) ∧
    (0 < m.hp - pdmg → w.player.hp - max 1 (mroll - st.defense) ≤ 0 →
      ∀ w2 msg, doAttack w pdmg mroll = some (w2, msg) →
        w2.monster = some { m with hp := m.hp - pdmg } ∧
        inCombat w2 = false ∧ gameOverFlag w2 = true) := by
  have hnc : (!(inCombat w)) = false := by simp [hc]
  refine ⟨?_, ?_, ?_⟩
  · intro hv w2 msg h
    simp only [doAttack, hnc, Bool.false_eq_true, if_false, hst, hm, bind,
      Option.bind] at h
    rw [if_pos hv] at h
    repeat' split at h
    all_goals first
      | (simp only [Option.some.injEq, Prod.mk.injEq] at h
         obtain ⟨hw2, -⟩ := h
         subst hw2
         exact ⟨rfl, by simp [inCombat, World.flag, dictGet_dictSet, truthy]⟩)
      | simp at h
  · intro hfp hstash hne1 hne2 hne3 hne4 w2 msg h
    simp only [doFlee, hnc, Bool.false_eq_true, if_false, hm, bind,
      Option.bind, reduceIte] at h
    simp only [World.flag] at hstash
    split at h
    · rw [Option.map_eq_some'] at h
      obtain ⟨p, hdesc, hpe⟩ := h
      simp only [Prod.mk.injEq] at hpe
      obtain ⟨hw2, -⟩ := hpe
      subst hw2
      have hfr := describeLocation_frame _
        (by simp [inCombat, World.flag, dictGet_dictSet, hne3, hne4, truthy])
        (by simp [World.flag, dictGet_dictSet, hne1, hne2, hstash])
        (by exact hfp) p hdesc
      refine ⟨hfr.1, ?_⟩
      show truthy (dictGet p.1.flags "in_combat") = false
      rw [hfr.2.1]
      simp [dictGet_dictSet, hne3, hne4, truthy]
    · rw [Option.map_eq_some'] at h
      obtain ⟨p, hdesc, hpe⟩ := h
      simp only [Prod.mk.injEq] at hpe
      obtain ⟨hw2, -⟩ := hpe
      subst hw2
      have hfr := describeLocation_frame _
        (by simp [inCombat, World.flag, dictGet_dictSet, truthy])
        (by simp [World.flag, dictGet_dictSet, hstash])
        (by exact hfp) p hdesc
      refine ⟨hfr.1, ?_⟩
      show truthy (dictGet p.1.flags "in_combat") = false
      rw [hfr.2.1]
      simp [dictGet_dictSet, truthy]
  · intro hsurv hdeath w2 msg h
    simp only [doAttack, hnc, Bool.false_eq_true, if_false, hst, hm, bind,
      Option.bind] at h
    rw [if_neg (by omega : ¬ (m.hp - pdmg ≤ 0))] at h
    split at h
    · simp only [Option.some.injEq, Prod.mk.injEq] at h
      obtain ⟨hw2, -⟩ := h
      subst hw2
      exact ⟨rfl, inCombat_after_death _, gameOver_after_death _⟩
    · omega

/-- Witness for `c2_combat_monster_binding`: a killing blow on the wolf
clears both the monster and the flag. -/
theorem c2_combat_monster_binding_witness :
    inCombat combatWorld = true ∧
    (((doAttack combatWorld 12 3).map Prod.fst).getD buildWorld).monster =
      none ∧
    inCombat (((doAttack combatWorld 12 3).map Prod.fst).getD buildWorld) =
      false := by
  have h := (c2_combat_monster_binding combatWorld
    { key := "forest_wolf", name := "Forest Wolf", hp := 12,
      attack_min := 2, attack_max := 4 }
    { attack := 2, defense := 0, max_hp := 20, hp_regen := 0 }
    12 3 rfl rfl rfl).1 (by decide)
    (((doAttack combatWorld 12 3).map Prod.fst).getD buildWorld)
    (((doAttack combatWorld 12 3).map Prod.snd).getD "") rfl
  exact ⟨rfl, h.1, h.2⟩

theorem append_right_ne (a s t : String) (h : s ≠ t) : a ++ s ≠ a ++ t := by
  intro he
  apply h
  obtain ⟨la⟩ := a
  obtain ⟨ls⟩ := s
  obtain ⟨lt⟩ := t
  have h3 : String.mk (la ++ ls) = String.mk (la ++ lt) := he
  injection h3 with h4
  rw [List.append_cancel_left h4]

/-- The world after walking from the village to the forest path with no
random encounter. -/
def c5Cave0 : World :=
  ((movePlayer buildWorld "forest_path" 50).map Prod.fst).getD buildWorld

/-- Entering the hidden cave for the first time seeds the Cave Beast boss
fight. -/
def c5Cave1 : World :=
  ((movePlayer c5Cave0 "hidden_cave" 50).map Prod.fst).getD buildWorld

/-- One strike for 2 leaves the Cave Beast at 23 hp. -/
def c5Wounded : World :=
  ((doAttack c5Cave1 2 3).map Prod.fst).getD buildWorld

/-- A successful flee from the wounded Cave Beast. -/
def c5Fled : World :=
  ((doFlee c5Wounded true 0).map Prod.fst).getD buildWorld

/-- Walking back into the hidden cave after the flee. -/
def c5Return : World :=
  { c5Fled with player := { c5Fled.player with location := "hidden_cave" } }

/-- C5: fleeing a boss stashes its remaining hp and key under the fled
location's flags, and `describe_location` at a location with such a stash
restores the same boss key at the stashed (reduced) hp, re-enters combat
and consumes the stash; fleeing a non-boss discards the monster and adds
no stash (flags change only at `in_combat`). -/
theorem c5_boss_flee_persistence (w : World) (m : Monster) (mroll : Int)
    (hc : inCombat w = true) (hm : w.monster = some m)
    (hfp : ∀ loc, dictGet w.locations "forest_path" = some loc →
      loc.key = "forest_path")
    (hstash : truthy (w.flag "forest_path_boss_key") = false)
    (hne1 : ("forest_path_boss_key" : String) ≠ w.player.location ++ "_boss_key")
    (hne2 : ("forest_path_boss_key" : String) ≠ w.player.location ++ "_boss_hp")
    (hne3 : ("in_combat" : String) ≠ w.player.location ++ "_boss_key")
    (hne4 : ("in_combat" : String) ≠ w.player.location ++ "_boss_hp") :
    (bossKeys.contains m.key = true →
      ∀ w2 msg, doFlee w true mroll = some (w2, msg) →
        w2.flag (w.player.location ++ "_boss_hp") = some (.int m.hp) ∧
        w2.flag (w.player.location ++ "_boss_key") = some (.str m.key) ∧
        w2.monster = none ∧ w2.player.location = "forest_path") ∧
    (bossKeys.contains m.key = false →
      ∀ w2 msg, doFlee w true mroll = some (w2, msg) →
        w2.monster = none ∧
        w2.flags = dictSet w.flags "in_combat" (.bool false)) ∧
    (∀ wr : World, inCombat wr = false →
      ∀ loc bk bh, dictGet wr.locations wr.player.location = some loc →
        wr.flag (loc.key ++ "_boss_key") = some (.str bk) →
        wr.flag (loc.key ++ "_boss_hp") = some (.int bh) →
        (bk = "cave_beast" ∨ bk = "ancient_guardian" ∨ bk = "tower_guardian") →
        bh ≠ 0 →
        ("in_combat" : String) ≠ loc.key ++ "_boss_key" →
        ("in_combat" : String) ≠ loc.key ++ "_boss_hp" →
        ∀ p : World × String, describeLocation wr = some p →
          (∃ m2, p.1.monster = some m2 ∧ m2.key = bk ∧ m2.hp = bh) ∧
          inCombat p.1 = true ∧
          p.1.flag (loc.key ++ "_boss_key") = none ∧
          p.1.flag (loc.key ++ "_boss_hp") = none) := by
  have hnc : (!(inCombat w)) = false := by simp [hc]
  have hstash2 : truthy (dictGet w.flags "forest_path_boss_key") = false := hstash
  refine ⟨?_, ?_, ?_⟩
  · intro hb w2 msg h
    simp only [doFlee, hnc, Bool.false_eq_true, if_false, hm, hb, bind,
      Option.bind, reduceIte] at h
    rw [Option.map_eq_some'] at h
    obtain ⟨p, hdesc, hpe⟩ := h
    simp only [Prod.mk.injEq] at hpe
    obtain ⟨hw2, -⟩ := hpe
    subst hw2
    have hfr := describeLocation_frame _
      (by simp [inCombat, World.flag, dictGet_dictSet, hne3, hne4, truthy])
      (by simp [World.flag, dictGet_dictSet, hne1, hne2, hstash2])
      (by exact hfp) p hdesc
    refine ⟨?_, ?_, hfr.1, ?_⟩
    · show dictGet p.1.flags (w.player.location ++ "_boss_hp") = some (.int m.hp)
      rw [hfr.2.1]
      rw [dictGet_set_ne _ _ _ _
        (append_right_ne w.player.location "_boss_hp" "_boss_key" (by decide))]
      exact dictGet_set_self _ _ _
    · show dictGet p.1.flags (w.player.location ++ "_boss_key") = some (.str m.key)
      rw [hfr.2.1]
      exact dictGet_set_self _ _ _
    · show p.1.player.location = "forest_path"
      rw [hfr.2.2]
  · intro hb w2 msg h
    simp only [doFlee, hnc, Bool.false_eq_true, if_false, hm, hb, bind,
      Option.bind, reduceIte] at h
    rw [Option.map_eq_some'] at h
    obtain ⟨p, hdesc, hpe⟩ := h
    simp only [Prod.mk.injEq] at hpe
    obtain ⟨hw2, -⟩ := hpe
    subst hw2
    have hfr := describeLocation_frame _
      (by simp [inCombat, World.flag, dictGet_dictSet, truthy])
      (by simp [World.flag, dictGet_dictSet, hstash2])
      (by exact hfp) p hdesc
    exact ⟨hfr.1, hfr.2.1⟩
  · intro wr hic loc bk bh hloc hbkf hbhf hbkin hbh0 hne5 hne6 p h
    simp only [describeLocation, bind, Option.bind] at h
    rw [hloc] at h
    simp only [] at h
    rw [hbkf, hbhf] at h
    rcases hbkin with rfl | rfl | rfl <;>
    · simp only [truthy, hic, Bool.not_false, Bool.and_true, reduceIte,
        bne_iff_ne, ne_eq, hbh0, not_false_eq_true,
        Bool.and_self, Bool.true_and, String.reduceBNe, Option.bind,
        Option.some.injEq] at h
      simp only [String.reduceBEq, Bool.false_eq_true, if_false, reduceIte,
        Option.bind, Option.some.injEq] at h
      rw [← h]
      refine ⟨⟨_, rfl, rfl, rfl⟩, ?_, ?_, ?_⟩
      · show truthy (dictGet _ "in_combat") = true
        rw [dictGet_del_ne _ _ _ hne6, dictGet_del_ne _ _ _ hne5,
          dictGet_set_self]
        rfl
      · show dictGet _ (loc.key ++ "_boss_key") = none
        rw [dictGet_del_ne _ _ _
          (append_right_ne loc.key "_boss_key" "_boss_hp" (by decide))]
        exact dictGet_del_self _ _
      · show dictGet _ (loc.key ++ "_boss_hp") = none
        exact dictGet_del_self _ _

/-- Witness for `c5_boss_flee_persistence`: flee the wounded Cave Beast
(25 → 23 hp), observe the stash, return, observe the restored beast at
23 hp with combat re-entered. -/
theorem c5_boss_flee_persistence_witness :
    inCombat c5Wounded = true ∧ bossKeys.contains "cave_beast" = true ∧
    c5Fled.flag ("hidden_cave" ++ "_boss_hp") = some (.int 23) ∧
    c5Fled.flag ("hidden_cave" ++ "_boss_key") = some (.str "cave_beast") ∧
    c5Fled.monster = none ∧ c5Fled.player.location = "forest_path" ∧
    (∃ m2, ((describeLocation c5Return).getD (buildWorld, "")).1.monster =
      some m2 ∧ m2.key = "cave_beast" ∧ m2.hp = 23) ∧
    inCombat ((describeLocation c5Return).getD (buildWorld, "")).1 = true := by
  have thm := c5_boss_flee_persistence c5Wounded
    { key := "cave_beast", name := "Cave Beast", hp := 23,
      attack_min := 2, attack_max := 5 } 0
    rfl rfl
    (fun loc hl => by
      have h2 : (dictGet c5Wounded.locations "forest_path").map Location.key =
        some "forest_path" := rfl
      rw [hl] at h2
      simpa using h2)
    rfl (by decide) (by decide) (by decide) (by decide)
  have h1 := thm.1 (by decide) c5Fled
    (((doFlee c5Wounded true 0).map Prod.snd).getD "") rfl
  have h3 := thm.2.2 c5Return rfl
    ((dictGet c5Return.locations "hidden_cave").getD
      { key := "", description := "", exits := [] })
    "cave_beast" 23 rfl rfl rfl (Or.inl rfl) (by decide) (by decide)
    (by decide) ((describeLocation c5Return).getD (buildWorld, "")) rfl
  exact ⟨rfl, by decide, h1.1, h1.2.1, h1.2.2.1, h1.2.2.2, h3.1, h3.2.1⟩

end Theron
